import Mathlib

/-!
Verification of the payment-event reconciliation core of the stripe-backend
repository.  The JavaScript handlers are shallowly embedded as pure Lean
functions: nullable JS values become Option, the orders table becomes a list
of rows, asynchronous store and provider calls become explicit parameters and
an effect trace, and injected Boolean flags stand for store failures.
-/

namespace StripeBackend

/-! Basic JS-value helpers. -/

/-- Truthiness of a nullable JS string: null, undefined and the empty string
are falsy, every other string is truthy. -/
def truthy : Option String → Bool
  | none => false
  | some s => s != ""

/-- Embeds the JS expression a logical-or b on nullable strings: the left
operand wins when it is truthy, otherwise the right operand is returned. -/
def orStr (a b : Option String) : Option String := if truthy a then a else b

/-- Embeds the JS nullish-coalescing expression a double-question-mark b on
nullable strings: only null and undefined fall through to b. -/
def nn (a b : Option String) : Option String :=
  match a with
  | some v => some v
  | none => b

/-- Lowering of one character, as JS toLowerCase acts on ASCII. -/
def charToLower (c : Char) : Char :=
  if 'A' ≤ c && c ≤ 'Z' then Char.ofNat (c.toNat + 32) else c

/-- JS toLowerCase, written over the character list so that it evaluates in
the kernel. -/
def jsToLower (s : String) : String := String.mk (s.toList.map charToLower)

/-- Splitting a character list at a separator, mirroring the splitting the
anchored UUID regular expression performs at its hyphens. -/
def splitOnChar (sep : Char) : List Char → List (List Char)
  | [] => [[]]
  | c :: t =>
      if c == sep then [] :: splitOnChar sep t
      else
        match splitOnChar sep t with
        | [] => [[c]]
        | g :: gs => (c :: g) :: gs

/-- Hex-digit test used by the order-id regular expression. -/
def isHexChar (c : Char) : Bool :=
  ('0' ≤ c && c ≤ '9') || ('a' ≤ c && c ≤ 'f') || ('A' ≤ c && c ≤ 'F')

/-- One hyphen-free group of the UUID regular expression: exactly n hex digits. -/
def isHexSeg (l : List Char) (n : Nat) : Bool :=
  l.length == n && l.all isHexChar

/-- Embeds the isUuid regular expression of stripe-webhook.js and part_001:
five hyphen-separated hex groups of lengths 8, 4, 4, 4 and 12. -/
def isUuidStr (s : String) : Bool :=
  match splitOnChar '-' s.toList with
  | [a, b, c, d, e] =>
      isHexSeg a 8 && isHexSeg b 4 && isHexSeg c 4 && isHexSeg d 4 && isHexSeg e 12
  | _ => false

/-- Embeds the JS call isUuid(String(s or-else empty)) on a nullable value. -/
def isUuid (s : Option String) : Bool :=
  isUuidStr ((orStr s (some "")).getD "")

/-! Provider-side data model: sessions, intents, charges, refunds.
Every field that JS may find absent is an Option. -/

structure CardDetails where
  brand : Option String
  last4 : Option String
deriving DecidableEq

/-- Nested payment_method_details object of a charge.  The grabpay and paynow
fields record the presence of the corresponding sub-objects; typeTag embeds
the JS field named type. -/
structure PaymentMethodDetails where
  card : Option CardDetails
  grabpay : Bool
  paynow : Bool
  typeTag : Option String
deriving DecidableEq

structure Metadata where
  order_id : Option String
  orderId : Option String
deriving DecidableEq

structure Charge where
  id : Option String
  payment_method_details : Option PaymentMethodDetails
  metadata : Option Metadata
  payment_intent : Option String
deriving DecidableEq

structure PaymentMethod where
  card : Option CardDetails
deriving DecidableEq

structure PaymentIntent where
  id : Option String
  status : Option String
  latest_charge : Option Charge
  payment_method : Option PaymentMethod
  metadata : Option Metadata
  charges : List Charge
  amount_received : Option Int
  amount : Option Int
deriving DecidableEq

/-- A session's payment_intent field is either an unexpanded string id or an
expanded intent object. -/
inductive PIRef where
  | idStr (id : String)
  | obj (pi : PaymentIntent)
deriving DecidableEq

structure Session where
  id : String
  metadata : Option Metadata
  client_reference_id : Option String
  payment_intent : Option PIRef
  amount_total : Option Int
  currency : Option String
  payment_status : Option String
  status : Option String
deriving DecidableEq

/-- Session payment_intent viewed as an expanded object, as the handlers do
after a retrieve with expansion; a bare string id exposes no object fields. -/
def sessionPIObj (s : Session) : Option PaymentIntent :=
  match s.payment_intent with
  | some (PIRef.obj p) => some p
  | _ => none

/-- Embeds the webhook.js expression that reads a payment-intent id from a
value that is either a string or an expanded object. -/
def piRefId : Option PIRef → Option String
  | some (PIRef.idStr i) => some i
  | some (PIRef.obj p) => p.id
  | none => none

/-- JS truthiness of a session's payment_intent field: absent and the empty
string are falsy, an expanded object is truthy. -/
def truthyPIRef : Option PIRef → Bool
  | none => false
  | some (PIRef.idStr i) => i != ""
  | some (PIRef.obj _) => true

structure RefundObj where
  id : Option String
  charge : Option String
  payment_intent : Option String
  payment_intent_id : Option String
  amount : Option Int
  currency : Option String
  reason : Option String
deriving DecidableEq

inductive EventData where
  | session (s : Session)
  | intent (p : PaymentIntent)
  | refund (r : RefundObj)
  | charge (c : Charge)
  | other
deriving DecidableEq

structure Event where
  id : String
  type : String
  data : EventData
deriving DecidableEq

/-- Event data viewed as a session object; events of a session type carry one. -/
def EventData.asSession : EventData → Session
  | EventData.session s => s
  | _ => Session.mk "" none none none none none none none

/-- Event data viewed as a payment-intent object. -/
def EventData.asIntent : EventData → PaymentIntent
  | EventData.intent p => p
  | _ => PaymentIntent.mk none none none none none [] none none

/-- Event data viewed as a refund object. -/
def EventData.asRefund : EventData → RefundObj
  | EventData.refund r => r
  | _ => RefundObj.mk none none none none none none none

/-- Event data viewed as a charge object. -/
def EventData.asCharge : EventData → Charge
  | EventData.charge c => c
  | _ => Charge.mk none none none none

/-! Order store model. -/

structure OrderRow where
  id : String
  status : Option String
  payment_status : Option String
  paid_at : Option String
  payment_provider : Option String
  payment_intent_id : Option String
  charge_id : Option String
  checkout_session_id : Option String
  payment_method_brand : Option String
  payment_last4 : Option String
  payment_ref : Option String
  total_cents : Option Int
deriving DecidableEq

/-- A partial update payload: an outer none means the column is absent from
the payload, some v means the column is written with value v (v itself may be
null). -/
structure UpdatePatch where
  status : Option (Option String)
  payment_status : Option (Option String)
  paid_at : Option (Option String)
  payment_provider : Option (Option String)
  payment_intent_id : Option (Option String)
  charge_id : Option (Option String)
  checkout_session_id : Option (Option String)
  payment_method_brand : Option (Option String)
  payment_last4 : Option (Option String)
  payment_ref : Option (Option String)
  total_cents : Option (Option Int)
deriving DecidableEq

def emptyPatch : UpdatePatch :=
  UpdatePatch.mk none none none none none none none none none none none

/-- Applying a partial update to a row: present columns are overwritten,
absent columns keep their value.  The row id is never part of a payload. -/
def applyPatch (p : UpdatePatch) (r : OrderRow) : OrderRow :=
  OrderRow.mk r.id
    (p.status.getD r.status)
    (p.payment_status.getD r.payment_status)
    (p.paid_at.getD r.paid_at)
    (p.payment_provider.getD r.payment_provider)
    (p.payment_intent_id.getD r.payment_intent_id)
    (p.charge_id.getD r.charge_id)
    (p.checkout_session_id.getD r.checkout_session_id)
    (p.payment_method_brand.getD r.payment_method_brand)
    (p.payment_last4.getD r.payment_last4)
    (p.payment_ref.getD r.payment_ref)
    (p.total_cents.getD r.total_cents)

/-- Row filter of a conditional update.  byId embeds eq(id, x) where x may be
the JS null (matching no row); byIdNotCanceled embeds the part_001 filter
eq(id, x) combined with not(status, eq, canceled), under SQL three-valued
semantics a null status is not matched either. -/
inductive UpdateFilter where
  | byId (orderId : Option String)
  | byIdNotCanceled (orderId : String)
deriving DecidableEq

def matchesFilter : UpdateFilter → OrderRow → Bool
  | UpdateFilter.byId oid, r =>
      match oid with
      | some o => r.id == o
      | none => false
  | UpdateFilter.byIdNotCanceled o, r =>
      r.id == o &&
        (match r.status with
         | some s => s != "canceled"
         | none => false)

/-- Store and provider effects recorded by the embedded handlers. -/
inductive Effect where
  | readById (orderId : String)
  | readBySessionId (sid : String)
  | readByIntentId (pid : String)
  | updateRows (filt : UpdateFilter) (patch : UpdatePatch)
  | insertEventLog (eventId : String)
  | rpc (name : String)
  | retrieveSession (sid : String)
  | retrievePI (pid : String)
  | retrieveCharge (chid : String)
deriving DecidableEq

/-- Primary-key lookup, embedding select-eq(id, oid) against the orders table. -/
def findRow (db : List OrderRow) (oid : String) : Option OrderRow :=
  db.find? fun r => r.id == oid

/-- Conditional update: every row matched by the filter receives the patch. -/
def updateWhere (db : List OrderRow) (filt : UpdateFilter) (p : UpdatePatch) :
    List OrderRow :=
  db.map fun r => if matchesFilter filt r then applyPatch p r else r

/-- Applying a recorded update effect to a store; read and rpc effects do not
change the store. -/
def applyEffect : Effect → List OrderRow → List OrderRow
  | Effect.updateRows filt p, db => updateWhere db filt p
  | _, db => db

/-! Response model. -/

/-- JSON response bodies are restricted to the fields the handlers emit. -/
structure JsonObj where
  received : Option Bool
  ok : Option Bool
  ignored : Option Bool
  reason : Option String
  paid : Option Bool
  orderId : Option String
  action : Option String
  error : Option String
deriving DecidableEq

def emptyJson : JsonObj := JsonObj.mk none none none none none none none none

inductive RespBody where
  | text (s : String)
  | json (j : JsonObj)
deriving DecidableEq

structure HttpResponse where
  status : Nat
  body : RespBody
deriving DecidableEq

/-- Outcome of an embedded helper that talks to the store: its JSON-ish
return value, the resulting store, and the trace of effects it performed. -/
structure StoreOutcome where
  result : JsonObj
  db : List OrderRow
  ops : List Effect
deriving DecidableEq

/-- Outcome of an embedded HTTP handler. -/
structure HandlerOutcome where
  resp : HttpResponse
  db : List OrderRow
  ops : List Effect
deriving DecidableEq

/-- Normalized payment metadata: brand, last four digits, charge id. -/
structure CardBits where
  brand : Option String
  last4 : Option String
  chargeId : Option String
deriving DecidableEq

/-- Result of extractPmDetails in webhook.js: brand and last4 only. -/
structure PmDetails where
  brand : Option String
  last4 : Option String
deriving DecidableEq

/-- Merges a received-true marker into a handler result, embedding the JS
object spread that stripe-webhook.js performs before responding. -/
def withReceived (j : JsonObj) : JsonObj := { j with received := some true }

/-- Order-id resolution of the stripe-webhook.js and part_001 session
handlers: metadata order_id, then metadata orderId, then the client reference
id, first truthy value wins, falsy everything yields null. -/
def resolveSessionOrderIdMetaFirst (s : Session) : Option String :=
  orStr (s.metadata.bind fun m => m.order_id)
    (orStr (s.metadata.bind fun m => m.orderId)
      (orStr s.client_reference_id none))

/-- Order-id resolution of webhook.js markPaidBySession and part_000: the
client reference id is consulted before metadata order_id. -/
def resolveSessionOrderIdClientFirst (s : Session) : Option String :=
  orStr s.client_reference_id
    (orStr (s.metadata.bind fun m => m.order_id) none)

/-- Order-id resolution of the part_002 session branch: metadata order_id
then metadata orderId only; the client reference id is never consulted. -/
def resolveSessionOrderIdMetaOnly (s : Session) : Option String :=
  orStr (s.metadata.bind fun m => m.order_id)
    (orStr (s.metadata.bind fun m => m.orderId) none)

/-- Order-id resolution from payment-intent metadata: order_id then orderId. -/
def resolveIntentOrderId (p : PaymentIntent) : Option String :=
  orStr (p.metadata.bind fun m => m.order_id)
    (orStr (p.metadata.bind fun m => m.orderId) none)

/-- Provider responses to the retrieve calls a handler may make, passed in as
explicit inputs to the embedded handlers. -/
structure ProviderCtx where
  fullSession : Session
  fullPI : PaymentIntent
deriving DecidableEq

/-! Embedding of the first handler variant of src/unnamed/part_001: the
markOrderPaid applier with the combined terminal predicate and the canceled
exclusion guard on the conditional update. -/

namespace Part1

/-- Embeds isTerminal of part_001: terminal when the lowercased status is
completed, canceled or paid, or the lowercased payment status is paid. -/
def isTerminal (status paymentStatus : Option String) : Bool :=
  let s := jsToLower (status.getD "")
  let ps := jsToLower (paymentStatus.getD "")
  s == "completed" || s == "canceled" || ps == "paid" || s == "paid"

/-- Embeds extractCardBits of part_001: card brand and last4 from the latest
charge's payment_method_details, plus the charge id; no fallback. -/
def extractCardBits (pi : Option PaymentIntent) : CardBits :=
  let ch := pi.bind fun p => p.latest_charge
  let card := ch.bind fun c => c.payment_method_details.bind fun d => d.card
  CardBits.mk (card.bind fun c => c.brand) (card.bind fun c => c.last4)
    (ch.bind fun c => c.id)

/-- Embeds markOrderPaid of part_001.  readFails and updFails inject store
errors; now stands for the current timestamp.  The conditional update carries
the not-status-eq-canceled guard; the best-effort recalc rpc follows a
successful write and its failures are swallowed by the source. -/
def markOrderPaid (readFails updFails : Bool) (now : String) (orderId : Option String)
    (updates : UpdatePatch) (db : List OrderRow) : StoreOutcome :=
  if !isUuid orderId then
    StoreOutcome.mk { emptyJson with ignored := some true } db []
  else
    let oid := (orStr orderId (some "")).getD ""
    if readFails then
      StoreOutcome.mk { emptyJson with ok := some false, reason := some "read_failed" }
        db [Effect.readById oid]
    else
      match findRow db oid with
      | none =>
          StoreOutcome.mk { emptyJson with ok := some true, reason := some "not_found" }
            db [Effect.readById oid]
      | some row =>
          if isTerminal row.status row.payment_status then
            StoreOutcome.mk
              { emptyJson with ok := some true, reason := some "already_terminal" }
              db [Effect.readById oid]
          else
            let payload := { updates with
              status := some (some "paid"),
              payment_status := some (some "paid"),
              paid_at := some (some now) }
            let filt := UpdateFilter.byIdNotCanceled oid
            if updFails then
              StoreOutcome.mk
                { emptyJson with ok := some false, reason := some "update_failed" }
                db [Effect.readById oid, Effect.updateRows filt payload]
            else
              StoreOutcome.mk { emptyJson with ok := some true }
                (updateWhere db filt payload)
                [Effect.readById oid, Effect.updateRows filt payload,
                 Effect.rpc "recalc_order_totals"]

/-- Embeds handleCheckoutSession of part_001; full is the provider response
to the session retrieve with payment-intent expansion. -/
def handleCheckoutSession (full : Session) (readFails updFails : Bool) (now : String)
    (session : Session) (db : List OrderRow) : StoreOutcome :=
  match resolveSessionOrderIdMetaFirst session with
  | none => StoreOutcome.mk { emptyJson with ignored := some true } db []
  | some oid =>
      let pi := sessionPIObj full
      let bits := extractCardBits pi
      let updates : UpdatePatch := { emptyPatch with
        payment_provider := some (some "stripe"),
        payment_intent_id := some (pi.bind fun p => p.id),
        charge_id := some bits.chargeId,
        checkout_session_id := some (some full.id),
        payment_method_brand := some bits.brand,
        payment_last4 := some bits.last4,
        total_cents := match full.amount_total with
          | some a => some (some a)
          | none => none }
      let inner := markOrderPaid readFails updFails now (some oid) updates db
      StoreOutcome.mk inner.result inner.db
        (Effect.retrieveSession session.id :: inner.ops)

/-- Embeds handlePaymentIntentSucceeded of part_001; fullPI is the provider
response to the intent retrieve with charge expansion. -/
def handlePaymentIntentSucceeded (fullPI : PaymentIntent) (readFails updFails : Bool)
    (now : String) (piObj : PaymentIntent) (db : List OrderRow) : StoreOutcome :=
  match resolveIntentOrderId piObj with
  | none => StoreOutcome.mk { emptyJson with ignored := some true } db []
  | some oid =>
      let bits := extractCardBits (some fullPI)
      let updates : UpdatePatch := { emptyPatch with
        payment_provider := some (some "stripe"),
        payment_intent_id := some fullPI.id,
        charge_id := some bits.chargeId,
        payment_method_brand := some bits.brand,
        payment_last4 := some bits.last4 }
      let inner := markOrderPaid readFails updFails now (some oid) updates db
      StoreOutcome.mk inner.result inner.db
        (Effect.retrievePI (piObj.id.getD "") :: inner.ops)

/-- Embeds the default-exported handler of part_001: method gate, signature
verification, then dispatch on the event type; helper results are returned
with res.json, hence HTTP status 200. -/
def handler (ctx : ProviderCtx) (readFails updFails : Bool) (now : String)
    (verify : String → Option String → String → Option Event)
    (secret method raw : String) (sig : Option String)
    (db : List OrderRow) : HandlerOutcome :=
  if method != "POST" then
    HandlerOutcome.mk (HttpResponse.mk 405 (RespBody.text "Method Not Allowed")) db []
  else
    match verify raw sig secret with
    | none =>
        HandlerOutcome.mk (HttpResponse.mk 400 (RespBody.text "Webhook Error")) db []
    | some ev =>
        if ev.type == "checkout.session.completed"
            || ev.type == "checkout.session.async_payment_succeeded" then
          let out := handleCheckoutSession ctx.fullSession readFails updFails now
            ev.data.asSession db
          HandlerOutcome.mk (HttpResponse.mk 200 (RespBody.json out.result)) out.db out.ops
        else if ev.type == "payment_intent.succeeded" then
          let out := handlePaymentIntentSucceeded ctx.fullPI readFails updFails now
            ev.data.asIntent db
          HandlerOutcome.mk (HttpResponse.mk 200 (RespBody.json out.result)) out.db out.ops
        else
          HandlerOutcome.mk
            (HttpResponse.mk 200 (RespBody.json { emptyJson with received := some true }))
            db []

end Part1

/-! Embedding of src/api/stripe-webhook.js: the status-only terminal
predicate, the extractor with the payment-method fallback, and the applier
whose conditional update is filtered by id only. -/

namespace StripeWebhook

/-- Embeds isTerminal of stripe-webhook.js: status-only, non-strings are not
terminal. -/
def isTerminal (status : Option String) : Bool :=
  match status with
  | none => false
  | some s =>
      let t := jsToLower s
      t == "paid" || t == "completed" || t == "canceled"

/-- Embeds extractCardBitsFromPI of stripe-webhook.js: card bits from the
latest charge, then a fallback to the intent's attached payment method's card
when brand or last4 is still falsy. -/
def extractCardBitsFromPI (pi : Option PaymentIntent) : CardBits :=
  let ch := pi.bind fun p => p.latest_charge
  let card := ch.bind fun c => c.payment_method_details.bind fun d => d.card
  let brand0 := card.bind fun c => c.brand
  let last40 := card.bind fun c => c.last4
  let chargeId := ch.bind fun c => c.id
  let pmCard := (pi.bind fun p => p.payment_method).bind fun m => m.card
  if (!truthy brand0 || !truthy last40) && pmCard.isSome then
    CardBits.mk (nn brand0 (nn (pmCard.bind fun c => c.brand) none))
      (nn last40 (nn (pmCard.bind fun c => c.last4) none)) chargeId
  else
    CardBits.mk brand0 last40 chargeId

/-- Embeds markOrderPaid of stripe-webhook.js: UUID gate, read, status-only
terminal check, then an update filtered by id alone, with no guard against a
concurrently canceled row. -/
def markOrderPaid (readFails updFails : Bool) (orderId : Option String)
    (fields : UpdatePatch) (db : List OrderRow) : StoreOutcome :=
  if !isUuid orderId then
    StoreOutcome.mk { emptyJson with ok := some true, ignored := some true } db []
  else
    let oid := (orStr orderId (some "")).getD ""
    if readFails then
      StoreOutcome.mk { emptyJson with ok := some false, reason := some "read_failed" }
        db [Effect.readById oid]
    else
      match findRow db oid with
      | none =>
          StoreOutcome.mk { emptyJson with ok := some true, reason := some "not_found" }
            db [Effect.readById oid]
      | some row =>
          if isTerminal row.status then
            StoreOutcome.mk
              { emptyJson with ok := some true, reason := some "already_terminal" }
              db [Effect.readById oid]
          else
            let filt := UpdateFilter.byId (some oid)
            if updFails then
              StoreOutcome.mk
                { emptyJson with ok := some false, reason := some "update_failed" }
                db [Effect.readById oid, Effect.updateRows filt fields]
            else
              StoreOutcome.mk { emptyJson with ok := some true }
                (updateWhere db filt fields)
                [Effect.readById oid, Effect.updateRows filt fields]

/-- Embeds handleCheckoutSession of stripe-webhook.js.  Its update payload
sets status but not payment_status. -/
def handleCheckoutSession (full : Session) (readFails updFails : Bool) (now : String)
    (session : Session) (db : List OrderRow) : StoreOutcome :=
  match resolveSessionOrderIdMetaFirst session with
  | none => StoreOutcome.mk { emptyJson with ignored := some true } db []
  | some oid =>
      let pi := sessionPIObj full
      let bits := extractCardBitsFromPI pi
      let updates : UpdatePatch := { emptyPatch with
        status := some (some "paid"),
        paid_at := some (some now),
        payment_method_brand := some bits.brand,
        payment_last4 := some bits.last4,
        payment_intent_id := some (pi.bind fun p => p.id),
        charge_id := some bits.chargeId,
        checkout_session_id := some (some full.id),
        total_cents := match full.amount_total with
          | some a => some (some a)
          | none => none }
      let inner := markOrderPaid readFails updFails (some oid) updates db
      StoreOutcome.mk inner.result inner.db
        (Effect.retrieveSession session.id :: inner.ops)

/-- Embeds handlePaymentIntentSucceeded of stripe-webhook.js. -/
def handlePaymentIntentSucceeded (fullPI : PaymentIntent) (readFails updFails : Bool)
    (now : String) (piObj : PaymentIntent) (db : List OrderRow) : StoreOutcome :=
  match orStr (piObj.metadata.bind fun m => m.order_id)
      (orStr (piObj.metadata.bind fun m => m.orderId) none) with
  | none => StoreOutcome.mk { emptyJson with ignored := some true } db []
  | some oid =>
      let bits := extractCardBitsFromPI (some fullPI)
      let updates : UpdatePatch := { emptyPatch with
        status := some (some "paid"),
        paid_at := some (some now),
        payment_method_brand := some bits.brand,
        payment_last4 := some bits.last4,
        payment_intent_id := some fullPI.id,
        charge_id := some bits.chargeId }
      let inner := markOrderPaid readFails updFails (some oid) updates db
      StoreOutcome.mk inner.result inner.db
        (Effect.retrievePI (piObj.id.getD "") :: inner.ops)

/-- Embeds the default-exported handler of stripe-webhook.js.  Helper results
are merged into a received-true body and sent with res.json, hence HTTP 200
even when the helper reports a failed update. -/
def handler (ctx : ProviderCtx) (readFails updFails : Bool) (now : String)
    (verify : String → Option String → String → Option Event)
    (secret method raw : String) (sig : Option String)
    (db : List OrderRow) : HandlerOutcome :=
  if method != "POST" then
    HandlerOutcome.mk (HttpResponse.mk 405 (RespBody.text "Method Not Allowed")) db []
  else
    match verify raw sig secret with
    | none =>
        HandlerOutcome.mk (HttpResponse.mk 400 (RespBody.text "Webhook Error")) db []
    | some ev =>
        if ev.type == "checkout.session.completed"
            || ev.type == "checkout.session.async_payment_succeeded" then
          let out := handleCheckoutSession ctx.fullSession readFails updFails now
            ev.data.asSession db
          HandlerOutcome.mk
            (HttpResponse.mk 200 (RespBody.json (withReceived out.result)))
            out.db out.ops
        else if ev.type == "payment_intent.succeeded" then
          let out := handlePaymentIntentSucceeded ctx.fullPI readFails updFails now
            ev.data.asIntent db
          HandlerOutcome.mk
            (HttpResponse.mk 200 (RespBody.json (withReceived out.result)))
            out.db out.ops
        else
          HandlerOutcome.mk
            (HttpResponse.mk 200 (RespBody.json { emptyJson with received := some true }))
            db []

end StripeWebhook

/-! Embedding of src/api/webhook.js: extractPmDetails with the redirect-style
branches, markPaidBySession without terminal or UUID checks, and
upsertChargeDetails. -/

namespace Webhook

/-- Embeds extractPmDetails of webhook.js: card details when a card
sub-object exists (falsy brand defaults to the word card), otherwise the
grabpay or paynow tag, otherwise the generic type tag defaulting to unknown. -/
def extractPmDetails (charge : Option Charge) : PmDetails :=
  match charge.bind fun c => c.payment_method_details with
  | none => PmDetails.mk none none
  | some pmd =>
      match pmd.card with
      | some card => PmDetails.mk (orStr card.brand (some "card")) (orStr card.last4 none)
      | none =>
          if pmd.grabpay then PmDetails.mk (some "grabpay") none
          else if pmd.paynow then PmDetails.mk (some "paynow") none
          else PmDetails.mk (orStr pmd.typeTag (some "unknown")) none

/-- Embeds markPaidBySession of webhook.js: resolves the order id with the
client reference id first and immediately issues an unconditional update of
status, paid_at, checkout_session_id and payment_intent_id filtered by id
only; no terminal-state check and no UUID validation precede the write. -/
def markPaidBySession (updFails : Bool) (now : String) (session : Session)
    (db : List OrderRow) : List OrderRow × List Effect :=
  let orderId := resolveSessionOrderIdClientFirst session
  let paymentIntentId := piRefId session.payment_intent
  let patch : UpdatePatch := { emptyPatch with
    status := some (some "paid"),
    paid_at := some (some now),
    checkout_session_id := some (some session.id),
    payment_intent_id := some (orStr paymentIntentId none) }
  let filt := UpdateFilter.byId orderId
  if updFails then (db, [Effect.updateRows filt patch])
  else (updateWhere db filt patch, [Effect.updateRows filt patch])

/-- Embeds upsertChargeDetails of webhook.js; retrieved is the provider
response used when the argument is a bare intent id. -/
def upsertChargeDetails (updFails : Bool) (now : String) (pi : PIRef)
    (retrieved : PaymentIntent) (db : List OrderRow) : List OrderRow × List Effect :=
  let retrieveOps := match pi with
    | PIRef.idStr i => [Effect.retrievePI i]
    | PIRef.obj _ => []
  let intent := match pi with
    | PIRef.idStr _ => retrieved
    | PIRef.obj p => p
  if !truthy intent.id then (db, retrieveOps)
  else
    let chargeId := orStr (intent.latest_charge.bind fun c => c.id)
      (orStr (match intent.charges with | [] => none | c :: _ => c.id) none)
    let primaryCharge := match intent.latest_charge with
      | some c => some c
      | none => match intent.charges with | [] => none | c :: _ => some c
    let pmd := extractPmDetails primaryCharge
    let orderId := orStr (intent.metadata.bind fun m => m.order_id)
      (orStr (primaryCharge.bind fun c => c.metadata.bind fun m => m.order_id) none)
    if !truthy orderId then (db, retrieveOps)
    else
      let patch : UpdatePatch := { emptyPatch with
        status := some (some "paid"),
        paid_at := some (some now),
        payment_intent_id := some intent.id,
        charge_id := some chargeId,
        payment_method_brand := some pmd.brand,
        payment_last4 := some pmd.last4 }
      let filt := UpdateFilter.byId orderId
      if updFails then (db, retrieveOps ++ [Effect.updateRows filt patch])
      else (updateWhere db filt patch, retrieveOps ++ [Effect.updateRows filt patch])

/-- Embeds the default-exported handler of webhook.js: method gate, missing
signature gate, verification, then dispatch; every non-throwing dispatch ends
in res.status(200).json(received true). -/
def handler (fullPI : PaymentIntent) (updFails : Bool) (now : String)
    (verify : String → Option String → String → Option Event)
    (secret method raw : String) (sig : Option String)
    (db : List OrderRow) : HandlerOutcome :=
  if method != "POST" then
    HandlerOutcome.mk (HttpResponse.mk 405 (RespBody.text "")) db []
  else if !truthy sig then
    HandlerOutcome.mk (HttpResponse.mk 400 (RespBody.text "Missing signature")) db []
  else
    match verify raw sig secret with
    | none =>
        HandlerOutcome.mk (HttpResponse.mk 400 (RespBody.text "Webhook Error")) db []
    | some ev =>
        let okResp := HttpResponse.mk 200
          (RespBody.json { emptyJson with received := some true })
        if ev.type == "checkout.session.completed" then
          let s := ev.data.asSession
          let first := markPaidBySession updFails now s db
          let second := match s.payment_intent with
            | some pr =>
                if (match pr with | PIRef.idStr x => x != "" | PIRef.obj _ => true) then
                  upsertChargeDetails updFails now pr fullPI first.1
                else (first.1, [])
            | none => (first.1, [])
          HandlerOutcome.mk okResp second.1 (first.2 ++ second.2)
        else if ev.type == "payment_intent.succeeded" then
          let out := upsertChargeDetails updFails now (PIRef.obj ev.data.asIntent)
            fullPI db
          HandlerOutcome.mk okResp out.1 out.2
        else if ev.type == "charge.succeeded" then
          let ch := ev.data.asCharge
          match ch.payment_intent with
          | some piId =>
              if piId != "" then
                let out := upsertChargeDetails updFails now (PIRef.idStr piId) fullPI db
                HandlerOutcome.mk okResp out.1 out.2
              else HandlerOutcome.mk okResp db []
          | none => HandlerOutcome.mk okResp db []
        else
          HandlerOutcome.mk okResp db []

end Webhook

/-! Embedding of src/unnamed/part_002: the handler variant that writes the
orders row inline, with no pre-write read, no terminal check, no UUID check,
and a 500 response when the update reports an error. -/

namespace Part2

/-- Embeds the inline card-bit extraction of part_002, which uses JS
logical-or (falsy fallthrough) rather than nullish coalescing. -/
def extractBits (pi : Option PaymentIntent) : CardBits :=
  let ch := pi.bind fun p => p.latest_charge
  let card := ch.bind fun c => c.payment_method_details.bind fun d => d.card
  let brand0 := orStr (card.bind fun c => c.brand) none
  let last40 := orStr (card.bind fun c => c.last4) none
  let chargeId := orStr (ch.bind fun c => c.id) none
  let pmCard := (pi.bind fun p => p.payment_method).bind fun m => m.card
  if (!truthy brand0 || !truthy last40) && pmCard.isSome then
    CardBits.mk (orStr brand0 (orStr (pmCard.bind fun c => c.brand) none))
      (orStr last40 (orStr (pmCard.bind fun c => c.last4) none)) chargeId
  else
    CardBits.mk brand0 last40 chargeId

/-- Embeds the default-exported handler of part_002.  An update error on
either payment branch yields res.status(500).json(ok false); success yields
res.json(received true).  The session's payment_intent is delivered by the
provider as its string id, which the source stores as payment_intent_id. -/
def handler (ctx : ProviderCtx) (updFails : Bool) (now : String)
    (verify : String → Option String → String → Option Event)
    (secret method raw : String) (sig : Option String)
    (db : List OrderRow) : HandlerOutcome :=
  if method != "POST" then
    HandlerOutcome.mk (HttpResponse.mk 405 (RespBody.text "Method Not Allowed")) db []
  else
    match verify raw sig secret with
    | none =>
        HandlerOutcome.mk (HttpResponse.mk 400 (RespBody.text "Webhook Error")) db []
    | some ev =>
        if ev.type == "checkout.session.completed" then
          let s := ev.data.asSession
          match resolveSessionOrderIdMetaOnly s with
          | none =>
              HandlerOutcome.mk
                (HttpResponse.mk 200 (RespBody.json
                  { emptyJson with received := some true, ignored := some true })) db []
          | some oid =>
              let hasPI := truthyPIRef s.payment_intent
              let bits := if hasPI then extractBits (some ctx.fullPI)
                else CardBits.mk none none none
              let retrOps := if hasPI then
                  [Effect.retrievePI ((piRefId s.payment_intent).getD "")]
                else []
              let updates : UpdatePatch := { emptyPatch with
                status := some (some "paid"),
                paid_at := some (some now),
                payment_method_brand := some bits.brand,
                payment_last4 := some bits.last4,
                payment_intent_id := some (piRefId s.payment_intent),
                charge_id := some bits.chargeId,
                checkout_session_id := some (some s.id),
                total_cents := match s.amount_total with
                  | some a => some (some a)
                  | none => none }
              let filt := UpdateFilter.byId (some oid)
              if updFails then
                HandlerOutcome.mk
                  (HttpResponse.mk 500 (RespBody.json { emptyJson with ok := some false }))
                  db (retrOps ++ [Effect.updateRows filt updates])
              else
                HandlerOutcome.mk
                  (HttpResponse.mk 200 (RespBody.json
                    { emptyJson with received := some true }))
                  (updateWhere db filt updates)
                  (retrOps ++ [Effect.updateRows filt updates])
        else if ev.type == "payment_intent.succeeded" then
          let p := ev.data.asIntent
          match orStr (p.metadata.bind fun m => m.order_id)
              (orStr (p.metadata.bind fun m => m.orderId) none) with
          | none =>
              HandlerOutcome.mk
                (HttpResponse.mk 200 (RespBody.json
                  { emptyJson with received := some true, ignored := some true })) db []
          | some oid =>
              let bits := extractBits (some ctx.fullPI)
              let updates : UpdatePatch := { emptyPatch with
                status := some (some "paid"),
                paid_at := some (some now),
                payment_method_brand := some bits.brand,
                payment_last4 := some bits.last4,
                payment_intent_id := some ctx.fullPI.id,
                charge_id := some bits.chargeId }
              let filt := UpdateFilter.byId (some oid)
              if updFails then
                HandlerOutcome.mk
                  (HttpResponse.mk 500 (RespBody.json { emptyJson with ok := some false }))
                  db [Effect.retrievePI (p.id.getD ""), Effect.updateRows filt updates]
              else
                HandlerOutcome.mk
                  (HttpResponse.mk 200 (RespBody.json
                    { emptyJson with received := some true }))
                  (updateWhere db filt updates)
                  [Effect.retrievePI (p.id.getD ""), Effect.updateRows filt updates]
        else
          HandlerOutcome.mk
            (HttpResponse.mk 200 (RespBody.json { emptyJson with received := some true }))
            db []

end Part2

/-! Embedding of src/unnamed/part_003: the RPC-based variant with the
event-id idempotency log, the strict UUID check, and the refund path. -/

namespace Part3

/-- Version digit of the strict UUID regular expression: 1 to 5. -/
def isVersionChar (c : Char) : Bool := '1' ≤ c && c ≤ '5'

/-- Variant digit of the strict UUID regular expression: 8, 9, a, b, A or B. -/
def isVariantChar (c : Char) : Bool :=
  c == '8' || c == '9' || c == 'a' || c == 'b' || c == 'A' || c == 'B'

/-- Embeds the stricter isUuid regular expression of part_003, which also
constrains the version and variant digits. -/
def isUuidStrictStr (s : String) : Bool :=
  match splitOnChar '-' s.toList with
  | [a, b, c, d, e] =>
      isHexSeg a 8 && isHexSeg b 4 &&
      (match c with
       | x :: xs => isVersionChar x && xs.all isHexChar && c.length == 4
       | [] => false) &&
      (match d with
       | y :: ys => isVariantChar y && ys.all isHexChar && d.length == 4
       | [] => false) &&
      isHexSeg e 12
  | _ => false

/-- Embeds the part_003 isUuid call on a nullable value. -/
def isUuidP3 (s : Option String) : Bool :=
  isUuidStrictStr ((orStr s (some "")).getD "")

/-- Embeds extractCardBitsFromPI of part_003, textually the same extraction
as extractCardBits of part_001: no payment-method fallback. -/
def extractCardBitsFromPI (pi : Option PaymentIntent) : CardBits :=
  let ch := pi.bind fun p => p.latest_charge
  let card := ch.bind fun c => c.payment_method_details.bind fun d => d.card
  CardBits.mk (card.bind fun c => c.brand) (card.bind fun c => c.last4)
    (ch.bind fun c => c.id)

/-- Embeds readOrderIdFromMeta of part_003 applied to a session: when the
metadata object is absent the fallback object carries no order fields. -/
def readOrderIdFromMetaS (s : Session) : Option String :=
  match s.metadata with
  | some m => orStr m.order_id (orStr m.orderId none)
  | none => none

/-- Embeds readOrderIdFromMeta of part_003 applied to a nullable intent. -/
def readOrderIdFromMetaPI (p : Option PaymentIntent) : Option String :=
  match p with
  | none => none
  | some pi =>
      match pi.metadata with
      | some m => orStr m.order_id (orStr m.orderId none)
      | none => none

/-- Outcome of the event-log insert issued by logStripeEventOnce. -/
inductive InsertOutcome where
  | inserted (eventId : String)
  | errMsg (msg : String)
  | threw
deriving DecidableEq

/-- Models the append-only stripe_event_logs insert with a uniqueness
constraint on event_id, as Postgres reports it: a duplicate insert fails
with a duplicate-key message, a missing table fails with a
relation-does-not-exist message, and otherErr injects any other storage
failure with its own message.  The log is the list of already-recorded
event ids. -/
def eventLogInsert (tableMissing : Bool) (otherErr : Option String)
    (log : List String) (eid : String) : InsertOutcome × List String :=
  match otherErr with
  | some m => (InsertOutcome.errMsg m, log)
  | none =>
      if tableMissing then
        (InsertOutcome.errMsg "relation \"stripe_event_logs\" does not exist", log)
      else if log.contains eid then
        (InsertOutcome.errMsg
          "duplicate key value violates unique constraint \"stripe_event_logs_event_id_key\"",
          log)
      else
        (InsertOutcome.inserted eid, eid :: log)

/-- Classification returned by logStripeEventOnce. -/
inductive LogResult where
  | okLogged (id : Option String)
  | alreadyProcessed
  | loggingDisabled
  | errOther (msg : String)
deriving DecidableEq

/-- Matching of a pattern against the front of a character list. -/
def startsWithChars : List Char → List Char → Bool
  | _, [] => true
  | [], _ :: _ => false
  | a :: as, b :: bs => a == b && startsWithChars as bs

/-- Occurrence of a pattern anywhere in a character list. -/
def hasSubChars : List Char → List Char → Bool
  | [], p => p.isEmpty
  | a :: t, p => startsWithChars (a :: t) p || hasSubChars t p

/-- JS String.includes on the character lists of the two strings. -/
def containsSubstr (s sub : String) : Bool :=
  hasSubChars s.toList sub.toList

/-- Embeds logStripeEventOnce of part_003: an error message mentioning
duplicate signals already-processed, a relation-does-not-exist message
disables logging, any exception is swallowed as disabled logging, and every
other error is surfaced to the caller, which ignores it. -/
def logStripeEventOnce (ins : InsertOutcome) : LogResult :=
  match ins with
  | InsertOutcome.inserted eid => LogResult.okLogged (some eid)
  | InsertOutcome.threw => LogResult.loggingDisabled
  | InsertOutcome.errMsg m =>
      let ml := jsToLower m
      if containsSubstr ml "duplicate" then LogResult.alreadyProcessed
      else if containsSubstr ml "relation" && containsSubstr ml "does not exist" then
        LogResult.loggingDisabled
      else LogResult.errOther m

/-- Modelled from the spec: the mark_order_paid security-definer RPC is SQL
deployed in the database and is not part of src/.  Per sections 4.3 and 4.5
of the spec it reads the row, leaves a missing row alone, no-ops when the
order is already terminal under the superset predicate (status paid,
completed or canceled, or payment status paid), and otherwise applies the
paid transition with the provider identifiers, excluding rows whose status
is canceled at write time. -/
def markOrderPaidRpc (now : String) (orderId : String)
    (checkoutSessionId paymentIntentId chargeId : Option String)
    (amountCents : Option Int) (db : List OrderRow) : List OrderRow :=
  match findRow db orderId with
  | none => db
  | some row =>
      if Part1.isTerminal row.status row.payment_status then db
      else
        updateWhere db (UpdateFilter.byIdNotCanceled orderId)
          { emptyPatch with
            status := some (some "paid"),
            payment_status := some (some "paid"),
            paid_at := some (some now),
            checkout_session_id := some checkoutSessionId,
            payment_intent_id := some paymentIntentId,
            charge_id := some chargeId,
            total_cents := match amountCents with
              | some a => some (some a)
              | none => none }

/-- Modelled from the spec: the mark_order_refunded RPC is SQL deployed in
the database and is not part of src/.  Per sections 4.5 and 8 of the spec it
moves an order that is not already refunded, canceled or completed into the
refunded state, recording the charge id; repeated application is a no-op. -/
def markOrderRefundedRpc (orderId : String) (chargeId : Option String)
    (db : List OrderRow) : List OrderRow :=
  match findRow db orderId with
  | none => db
  | some row =>
      let s := jsToLower (row.status.getD "")
      if s == "refunded" || s == "canceled" || s == "completed" then db
      else
        updateWhere db (UpdateFilter.byIdNotCanceled orderId)
          { emptyPatch with
            status := some (some "refunded"),
            charge_id := some chargeId }

/-- Result of a part_003 event handler: a JSON value, or none when the
handler threw (surfaced by the dispatcher as a 500 response). -/
structure P3Outcome where
  resp : Option JsonObj
  db : List OrderRow
  ops : List Effect
deriving DecidableEq

/-- Provider responses and failure flags for the part_003 handler. -/
structure P3Ctx where
  fullSession : Session
  fullPI : PaymentIntent
  refundPI : PaymentIntent
  chargePI : Option String
  rpcPaidFails : Bool
  refundRpcMissing : Bool
  refundRpcFails : Bool

/-- Embeds handleCheckoutSession of part_003: strict UUID gate, session
retrieve, then the mark_order_paid RPC, whose error is thrown. -/
def handleCheckoutSession (ctx : P3Ctx) (now : String) (session : Session)
    (db : List OrderRow) : P3Outcome :=
  match orStr (readOrderIdFromMetaS session) (orStr session.client_reference_id none) with
  | none =>
      P3Outcome.mk
        (some { emptyJson with
          ignored := some true,
          reason := some "missing_or_invalid_order_id" }) db []
  | some oid =>
      if !isUuidP3 (some oid) then
        P3Outcome.mk
          (some { emptyJson with
            ignored := some true,
            reason := some "missing_or_invalid_order_id" }) db []
      else
        let pi := sessionPIObj ctx.fullSession
        let bits := extractCardBitsFromPI pi
        let ops := [Effect.retrieveSession session.id, Effect.rpc "mark_order_paid"]
        if ctx.rpcPaidFails then P3Outcome.mk none db ops
        else
          P3Outcome.mk (some { emptyJson with ok := some true, orderId := some oid })
            (markOrderPaidRpc now oid (some ctx.fullSession.id) (pi.bind fun p => p.id)
              bits.chargeId ctx.fullSession.amount_total db)
            ops

/-- Embeds handlePaymentIntentSucceeded of part_003. -/
def handlePaymentIntentSucceeded (ctx : P3Ctx) (now : String) (piObj : PaymentIntent)
    (db : List OrderRow) : P3Outcome :=
  match readOrderIdFromMetaPI (some piObj) with
  | none =>
      P3Outcome.mk
        (some { emptyJson with
          ignored := some true,
          reason := some "missing_or_invalid_order_id" }) db []
  | some oid =>
      if !isUuidP3 (some oid) then
        P3Outcome.mk
          (some { emptyJson with
            ignored := some true,
            reason := some "missing_or_invalid_order_id" }) db []
      else
        let bits := extractCardBitsFromPI (some ctx.fullPI)
        let amountCents :=
          match ctx.fullPI.amount_received with
          | some a => some a
          | none => ctx.fullPI.amount
        let ops := [Effect.retrievePI (piObj.id.getD ""), Effect.rpc "mark_order_paid"]
        if ctx.rpcPaidFails then P3Outcome.mk none db ops
        else
          P3Outcome.mk (some { emptyJson with ok := some true, orderId := some oid })
            (markOrderPaidRpc now oid none ctx.fullPI.id bits.chargeId amountCents db)
            ops

/-- Embeds handleRefundEvent of part_003: locate the payment intent from the
refund object or via the charge, read the order id from its metadata with the
strict UUID gate, then call the optional mark_order_refunded RPC. -/
def handleRefundEvent (ctx : P3Ctx) (refundObj : RefundObj)
    (db : List OrderRow) : P3Outcome :=
  let chargeId := nn refundObj.charge (nn refundObj.id none)
  let piId0 := orStr refundObj.payment_intent (orStr refundObj.payment_intent_id none)
  let lookup : Option PaymentIntent × List Effect :=
    if truthy piId0 then (some ctx.refundPI, [Effect.retrievePI (piId0.getD "")])
    else if truthy chargeId then
      if truthy ctx.chargePI then
        (some ctx.refundPI,
          [Effect.retrieveCharge (chargeId.getD ""),
           Effect.retrievePI (ctx.chargePI.getD "")])
      else (none, [Effect.retrieveCharge (chargeId.getD "")])
    else (none, [])
  match readOrderIdFromMetaPI lookup.1 with
  | none =>
      P3Outcome.mk
        (some { emptyJson with
          ignored := some true,
          reason := some "refund_without_order_id" }) db lookup.2
  | some oid =>
      if !isUuidP3 (some oid) then
        P3Outcome.mk
          (some { emptyJson with
            ignored := some true,
            reason := some "refund_without_order_id" }) db lookup.2
      else
        let ops := lookup.2 ++ [Effect.rpc "mark_order_refunded"]
        if ctx.refundRpcMissing then
          P3Outcome.mk (some { emptyJson with ok := some true, orderId := some oid })
            db ops
        else if ctx.refundRpcFails then P3Outcome.mk none db ops
        else
          P3Outcome.mk (some { emptyJson with ok := some true, orderId := some oid })
            (markOrderRefundedRpc oid chargeId db) ops

/-- Embeds the part_003 switch over event types, wrapping handler throws as
500 responses. -/
def dispatch (ctx : P3Ctx) (now : String) (ev : Event) (db : List OrderRow) :
    HandlerOutcome :=
  let wrap : P3Outcome → HandlerOutcome := fun o =>
    match o.resp with
    | some j => HandlerOutcome.mk (HttpResponse.mk 200 (RespBody.json j)) o.db o.ops
    | none =>
        HandlerOutcome.mk (HttpResponse.mk 500 (RespBody.text "Webhook handler failed"))
          o.db o.ops
  if ev.type == "checkout.session.completed"
      || ev.type == "checkout.session.async_payment_succeeded" then
    wrap (handleCheckoutSession ctx now ev.data.asSession db)
  else if ev.type == "payment_intent.succeeded" then
    wrap (handlePaymentIntentSucceeded ctx now ev.data.asIntent db)
  else if ev.type == "charge.refunded" || ev.type == "refund.succeeded"
      || ev.type == "charge.refund.updated" then
    wrap (handleRefundEvent ctx ev.data.asRefund db)
  else if ev.type == "checkout.session.expired" then
    HandlerOutcome.mk
      (HttpResponse.mk 200 (RespBody.json
        { emptyJson with ok := some true, received := some true, action := some "noop" }))
      db []
  else
    HandlerOutcome.mk
      (HttpResponse.mk 200 (RespBody.json { emptyJson with received := some true })) db []

/-- Embeds the default-exported handler of part_003: method gate, signature
verification, best-effort idempotency log with the duplicate short-circuit,
then dispatch.  Also returns the resulting event log. -/
def handler (ctx : P3Ctx) (tableMissing : Bool) (otherErr : Option String)
    (log : List String) (now : String)
    (verify : String → Option String → String → Option Event)
    (secret method raw : String) (sig : Option String)
    (db : List OrderRow) : HandlerOutcome × List String :=
  if method != "POST" then
    (HandlerOutcome.mk (HttpResponse.mk 405 (RespBody.text "Method Not Allowed")) db [],
      log)
  else
    match verify raw sig secret with
    | none =>
        (HandlerOutcome.mk (HttpResponse.mk 400 (RespBody.text "Webhook Error")) db [],
          log)
    | some ev =>
        let ins := eventLogInsert tableMissing otherErr log ev.id
        if logStripeEventOnce ins.1 == LogResult.alreadyProcessed then
          (HandlerOutcome.mk
            (HttpResponse.mk 200 (RespBody.json
              { emptyJson with ok := some true, reason := some "duplicate_event" }))
            db [Effect.insertEventLog ev.id], ins.2)
        else
          let out := dispatch ctx now ev db
          (HandlerOutcome.mk out.resp out.db (Effect.insertEventLog ev.id :: out.ops),
            ins.2)

end Part3

/-! Embedding of the Supabase-backed variant of src/api/confirm-session.js:
paid decision, order-id derivation with reverse lookup, and the
identifier-backfill write that never touches status columns. -/

namespace ConfirmSession

/-- Embeds isPaid of confirm-session.js. -/
def isPaid (session : Session) (pi : Option PaymentIntent) : Bool :=
  (jsToLower (session.payment_status.getD "") == "paid")
    || (jsToLower ((pi.bind fun p => p.status).getD "") == "succeeded")

/-- Reverse lookup by payment_intent_id, second half of
findOrderIdByStripeIds; a row whose id is falsy is not returned. -/
def findByIntentId (piid : Option String) (db : List OrderRow)
    (prevOps : List Effect) : Option String × List Effect :=
  if truthy piid then
    match db.find? fun r => r.payment_intent_id == piid with
    | some r =>
        if r.id != "" then (some r.id, prevOps ++ [Effect.readByIntentId (piid.getD "")])
        else (none, prevOps ++ [Effect.readByIntentId (piid.getD "")])
    | none => (none, prevOps ++ [Effect.readByIntentId (piid.getD "")])
  else (none, prevOps)

/-- Embeds findOrderIdByStripeIds of confirm-session.js: reverse lookup by
checkout_session_id first, then by payment_intent_id. -/
def findOrderIdByStripeIds (csid piid : Option String) (db : List OrderRow) :
    Option String × List Effect :=
  if truthy csid then
    match db.find? fun r => r.checkout_session_id == csid with
    | some r =>
        if r.id != "" then (some r.id, [Effect.readBySessionId (csid.getD "")])
        else findByIntentId piid db [Effect.readBySessionId (csid.getD "")]
    | none => findByIntentId piid db [Effect.readBySessionId (csid.getD "")]
  else findByIntentId piid db []

/-- Embeds backfillStripeIds of confirm-session.js: read the row, then patch
checkout_session_id and payment_intent_id, each only when the existing value
is falsy; an empty patch issues no update, and read or update failures are
silently ignored. -/
def backfillStripeIds (readFails updFails : Bool) (orderId : Option String)
    (csid piid : Option String) (db : List OrderRow) : List OrderRow × List Effect :=
  if !truthy orderId then (db, [])
  else
    let oid := orderId.getD ""
    if readFails then (db, [Effect.readById oid])
    else
      match findRow db oid with
      | none => (db, [Effect.readById oid])
      | some existing =>
          let p1 := if truthy csid && !truthy existing.checkout_session_id then
              { emptyPatch with checkout_session_id := some csid }
            else emptyPatch
          let p2 := if truthy piid && !truthy existing.payment_intent_id then
              { p1 with payment_intent_id := some piid }
            else p1
          if p2 == emptyPatch then (db, [Effect.readById oid])
          else
            let filt := UpdateFilter.byId (some oid)
            if updFails then (db, [Effect.readById oid, Effect.updateRows filt p2])
            else (updateWhere db filt p2,
              [Effect.readById oid, Effect.updateRows filt p2])

/-- Embeds the default-exported handler of the Supabase-backed
confirm-session.js: method and session-id gates, session retrieve, paid
decision, order-id derivation with reverse lookup, opportunistic backfill,
and a 200 response that echoes the paid flag. -/
def handler (retrieveFails readFails updFails : Bool) (full : Session)
    (method : String) (sessionId : Option String) (db : List OrderRow) :
    HandlerOutcome :=
  if method != "POST" && method != "GET" then
    HandlerOutcome.mk (HttpResponse.mk 405 (RespBody.text "Method Not Allowed")) db []
  else
    match sessionId with
    | none =>
        HandlerOutcome.mk
          (HttpResponse.mk 400 (RespBody.json
            { emptyJson with ok := some false, error := some "missing_session_id" }))
          db []
    | some sid =>
        if sid == "" then
          HandlerOutcome.mk
            (HttpResponse.mk 400 (RespBody.json
              { emptyJson with ok := some false, error := some "missing_session_id" }))
            db []
        else if retrieveFails then
          HandlerOutcome.mk
            (HttpResponse.mk 500 (RespBody.json
              { emptyJson with ok := some false, error := some "server_error" }))
            db [Effect.retrieveSession sid]
        else
          let pi := sessionPIObj full
          let paid := isPaid full pi
          let oid0 := orStr (full.metadata.bind fun m => m.order_id)
            (orStr full.client_reference_id none)
          let resolved := if truthy oid0 then (oid0, ([] : List Effect))
            else findOrderIdByStripeIds (some full.id) (pi.bind fun p => p.id) db
          let bf := if truthy resolved.1 then
              backfillStripeIds readFails updFails resolved.1 (some full.id)
                (pi.bind fun p => p.id) db
            else (db, [])
          HandlerOutcome.mk
            (HttpResponse.mk 200 (RespBody.json
              { emptyJson with
                ok := some true,
                paid := some paid,
                orderId := orStr resolved.1 none }))
            bf.1 (Effect.retrieveSession sid :: (resolved.2 ++ bf.2))

end ConfirmSession

/-! Shared lemmas about the store model. -/

theorem applyPatch_id (p : UpdatePatch) (r : OrderRow) : (applyPatch p r).id = r.id := rfl

theorem findRow_updateWhere (db : List OrderRow) (filt : UpdateFilter) (p : UpdatePatch)
    (oid : String) :
    findRow (updateWhere db filt p) oid =
      (findRow db oid).map fun r => if matchesFilter filt r then applyPatch p r else r := by
  induction db with
  | nil => rfl
  | cons r t ih =>
      have hid : ((if matchesFilter filt r then applyPatch p r else r).id == oid)
          = (r.id == oid) := by
        cases matchesFilter filt r <;> simp [applyPatch]
      unfold findRow updateWhere at *
      rw [List.map_cons, List.find?_cons, List.find?_cons, hid]
      cases h : (r.id == oid) with
      | true => simp
      | false => simpa using ih

theorem findRow_id {db : List OrderRow} {oid : String} {row : OrderRow}
    (h : findRow db oid = some row) : row.id = oid := by
  have hp := List.find?_some h
  exact eq_of_beq hp

theorem findRow_mem {db : List OrderRow} {oid : String} {row : OrderRow}
    (h : findRow db oid = some row) : row ∈ db :=
  List.mem_of_find?_eq_some h

theorem nn_none (a : Option String) : nn a none = a := by
  cases a <;> rfl

theorem nn_none_left (a : Option String) : nn none a = a := rfl

theorem isUuid_some_ne_empty {oid : String} (h : isUuid (some oid) = true) : oid ≠ "" := by
  intro he
  subst he
  exact absurd h (by decide)

theorem orStr_some_of_ne {oid : String} (h : oid ≠ "") (b : Option String) :
    orStr (some oid) b = some oid := by
  simp [orStr, truthy, h]

/-! Claim theorems. -/

/-- C4: when signature verification fails against every configured secret
(stripe-webhook.js and webhook.js each verify against the single configured
webhook secret), the response is HTTP 400 and the handler performs no store
read or write and no provider-retrieval call. -/
theorem C4_signature_failure_no_access
    (verify : String → Option String → String → Option Event)
    (secret raw now : String) (sig : Option String)
    (ctx : ProviderCtx) (fullPI : PaymentIntent)
    (readF updF : Bool) (db : List OrderRow)
    (hfail : verify raw sig secret = none) :
    ((StripeWebhook.handler ctx readF updF now verify secret "POST" raw sig db).resp.status
        = 400
      ∧ (StripeWebhook.handler ctx readF updF now verify secret "POST" raw sig db).ops = []
      ∧ (StripeWebhook.handler ctx readF updF now verify secret "POST" raw sig db).db = db)
    ∧ ((Webhook.handler fullPI updF now verify secret "POST" raw sig db).resp.status = 400
      ∧ (Webhook.handler fullPI updF now verify secret "POST" raw sig db).ops = []
      ∧ (Webhook.handler fullPI updF now verify secret "POST" raw sig db).db = db) := by
  constructor
  · unfold StripeWebhook.handler
    rw [hfail]
    simp
  · unfold Webhook.handler
    rw [hfail]
    cases h : truthy sig <;> simp [h]

/-- The full update payload the part_001 pipeline writes for a checkout
session: the fields handleCheckoutSession collects merged with the paid
transition markOrderPaid adds. -/
def part1SessionPatch (full : Session) (now : String) : UpdatePatch :=
  { emptyPatch with
    status := some (some "paid"),
    payment_status := some (some "paid"),
    paid_at := some (some now),
    payment_provider := some (some "stripe"),
    payment_intent_id := some ((sessionPIObj full).bind PaymentIntent.id),
    charge_id := some (Part1.extractCardBits (sessionPIObj full)).chargeId,
    checkout_session_id := some (some full.id),
    payment_method_brand := some (Part1.extractCardBits (sessionPIObj full)).brand,
    payment_last4 := some (Part1.extractCardBits (sessionPIObj full)).last4,
    total_cents := match full.amount_total with
      | some a => some (some a)
      | none => none }

theorem part1_handleCheckoutSession_pending
    (full s : Session) (now : String) (db : List OrderRow) (oid : String) (row : OrderRow)
    (hres : resolveSessionOrderIdMetaFirst s = some oid)
    (huuid : isUuid (some oid) = true)
    (hfind : findRow db oid = some row)
    (hterm : Part1.isTerminal row.status row.payment_status = false) :
    Part1.handleCheckoutSession full false false now s db
      = StoreOutcome.mk { emptyJson with ok := some true }
          (updateWhere db (UpdateFilter.byIdNotCanceled oid) (part1SessionPatch full now))
          [Effect.retrieveSession s.id, Effect.readById oid,
           Effect.updateRows (UpdateFilter.byIdNotCanceled oid) (part1SessionPatch full now),
           Effect.rpc "recalc_order_totals"] := by
  have hne := isUuid_some_ne_empty huuid
  unfold Part1.handleCheckoutSession Part1.markOrderPaid
  rw [hres]
  simp only [huuid, Bool.not_true, Bool.false_eq_true, if_false, orStr_some_of_ne hne,
    Option.getD_some, hfind, hterm, Bool.if_false_left]
  simp [part1SessionPatch]

theorem part1_handleCheckoutSession_terminal
    (full s : Session) (now : String) (db : List OrderRow) (oid : String) (row : OrderRow)
    (hres : resolveSessionOrderIdMetaFirst s = some oid)
    (huuid : isUuid (some oid) = true)
    (hfind : findRow db oid = some row)
    (hterm : Part1.isTerminal row.status row.payment_status = true) :
    Part1.handleCheckoutSession full false false now s db
      = StoreOutcome.mk
          { emptyJson with ok := some true, reason := some "already_terminal" }
          db [Effect.retrieveSession s.id, Effect.readById oid] := by
  have hne := isUuid_some_ne_empty huuid
  unfold Part1.handleCheckoutSession Part1.markOrderPaid
  rw [hres]
  simp only [huuid, Bool.not_true, Bool.false_eq_true, if_false, orStr_some_of_ne hne,
    Option.getD_some, hfind, hterm]
  simp

/-- The update payload handleCheckoutSession of stripe-webhook.js builds for
a retrieved session. -/
def swSessionPatch (full : Session) (now : String) : UpdatePatch :=
  { emptyPatch with
    status := some (some "paid"),
    paid_at := some (some now),
    payment_method_brand := some (StripeWebhook.extractCardBitsFromPI (sessionPIObj full)).brand,
    payment_last4 := some (StripeWebhook.extractCardBitsFromPI (sessionPIObj full)).last4,
    payment_intent_id := some ((sessionPIObj full).bind PaymentIntent.id),
    charge_id := some (StripeWebhook.extractCardBitsFromPI (sessionPIObj full)).chargeId,
    checkout_session_id := some (some full.id),
    total_cents := match full.amount_total with
      | some a => some (some a)
      | none => none }

theorem sw_handleCheckoutSession_ok
    (full s : Session) (now : String) (db : List OrderRow) (oid : String) (row : OrderRow)
    (hres : resolveSessionOrderIdMetaFirst s = some oid)
    (huuid : isUuid (some oid) = true)
    (hfind : findRow db oid = some row)
    (hterm : StripeWebhook.isTerminal row.status = false) :
    StripeWebhook.handleCheckoutSession full false false now s db
      = StoreOutcome.mk { emptyJson with ok := some true }
          (updateWhere db (UpdateFilter.byId (some oid)) (swSessionPatch full now))
          [Effect.retrieveSession s.id, Effect.readById oid,
           Effect.updateRows (UpdateFilter.byId (some oid)) (swSessionPatch full now)] := by
  have hne := isUuid_some_ne_empty huuid
  unfold StripeWebhook.handleCheckoutSession StripeWebhook.markOrderPaid
  rw [hres]
  simp only [huuid, Bool.not_true, Bool.false_eq_true, if_false, orStr_some_of_ne hne,
    Option.getD_some, hfind, hterm]
  simp [swSessionPatch]

theorem sw_handleCheckoutSession_terminal
    (full s : Session) (now : String) (db : List OrderRow) (oid : String) (row : OrderRow)
    (hres : resolveSessionOrderIdMetaFirst s = some oid)
    (huuid : isUuid (some oid) = true)
    (hfind : findRow db oid = some row)
    (hterm : StripeWebhook.isTerminal row.status = true) :
    StripeWebhook.handleCheckoutSession full false false now s db
      = StoreOutcome.mk
          { emptyJson with ok := some true, reason := some "already_terminal" }
          db [Effect.retrieveSession s.id, Effect.readById oid] := by
  have hne := isUuid_some_ne_empty huuid
  unfold StripeWebhook.handleCheckoutSession StripeWebhook.markOrderPaid
  rw [hres]
  simp only [huuid, Bool.not_true, Bool.false_eq_true, if_false, orStr_some_of_ne hne,
    Option.getD_some, hfind, hterm]
  simp

/-- C1 (amended): on the part_001 pipeline, a validly signed checkout event
resolving to a UUID-valid order id whose row is pending transitions the row
to paid exactly once, persisting payment_status, paid_at, payment_provider,
the provider identifiers and card metadata; reprocessing the same event
returns already_terminal, changes nothing and issues no update.  On the
part_003 refund path the same event transitions a pending order to refunded
exactly once via the spec-modelled mark_order_refunded RPC, recording the
charge id.  The stripe-webhook.js handler performs the same exactly-once paid
transition and persists the provider identifiers, but its update payload
carries no payment_status column, so that field keeps its prior value. -/
theorem C1_paid_refund_exactly_once :
    (∀ (verify : String → Option String → String → Option Event)
        (secret raw now now2 : String) (sig : Option String)
        (ctx : ProviderCtx) (ev : Event) (s : Session)
        (db : List OrderRow) (oid : String) (row : OrderRow),
        verify raw sig secret = some ev →
        ev.type = "checkout.session.completed" →
        ev.data = EventData.session s →
        resolveSessionOrderIdMetaFirst s = some oid →
        isUuid (some oid) = true →
        findRow db oid = some row →
        row.status = some "pending" →
        Part1.isTerminal row.status row.payment_status = false →
        ((Part1.handler ctx false false now verify secret "POST" raw sig db).resp
            = HttpResponse.mk 200 (RespBody.json { emptyJson with ok := some true })
          ∧ findRow (Part1.handler ctx false false now verify secret "POST" raw sig db).db oid
            = some (applyPatch (part1SessionPatch ctx.fullSession now) row)
          ∧ (applyPatch (part1SessionPatch ctx.fullSession now) row).status = some "paid"
          ∧ (applyPatch (part1SessionPatch ctx.fullSession now) row).payment_status
            = some "paid"
          ∧ (applyPatch (part1SessionPatch ctx.fullSession now) row).paid_at = some now
          ∧ (applyPatch (part1SessionPatch ctx.fullSession now) row).payment_intent_id
            = (sessionPIObj ctx.fullSession).bind PaymentIntent.id
          ∧ (applyPatch (part1SessionPatch ctx.fullSession now) row).charge_id
            = (Part1.extractCardBits (sessionPIObj ctx.fullSession)).chargeId
          ∧ (applyPatch (part1SessionPatch ctx.fullSession now) row).checkout_session_id
            = some ctx.fullSession.id
          ∧ (Part1.handler ctx false false now2 verify secret "POST" raw sig
                (Part1.handler ctx false false now verify secret "POST" raw sig db).db).resp
            = HttpResponse.mk 200 (RespBody.json
                { emptyJson with ok := some true, reason := some "already_terminal" })
          ∧ (Part1.handler ctx false false now2 verify secret "POST" raw sig
                (Part1.handler ctx false false now verify secret "POST" raw sig db).db).db
            = (Part1.handler ctx false false now verify secret "POST" raw sig db).db
          ∧ ∀ f p, Effect.updateRows f p ∉
              (Part1.handler ctx false false now2 verify secret "POST" raw sig
                (Part1.handler ctx false false now verify secret "POST" raw sig db).db).ops))
    ∧ (∀ (ctx3 : Part3.P3Ctx) (now now2 : String) (ev : Event) (r : RefundObj)
        (db : List OrderRow) (oid : String) (row : OrderRow),
        ev.type = "charge.refunded" →
        ev.data = EventData.refund r →
        truthy (orStr r.payment_intent (orStr r.payment_intent_id none)) = true →
        Part3.readOrderIdFromMetaPI (some ctx3.refundPI) = some oid →
        Part3.isUuidP3 (some oid) = true →
        ctx3.refundRpcMissing = false →
        ctx3.refundRpcFails = false →
        findRow db oid = some row →
        row.status = some "pending" →
        ((Part3.dispatch ctx3 now ev db).resp.status = 200
          ∧ findRow (Part3.dispatch ctx3 now ev db).db oid
            = some { row with
                status := some "refunded",
                charge_id := nn r.charge (nn r.id none) }
          ∧ (Part3.dispatch ctx3 now2 ev (Part3.dispatch ctx3 now ev db).db).db
            = (Part3.dispatch ctx3 now ev db).db))
    ∧ (∀ (verify : String → Option String → String → Option Event)
        (secret raw now now2 : String) (sig : Option String)
        (ctx : ProviderCtx) (ev : Event) (s : Session)
        (db : List OrderRow) (oid : String) (row : OrderRow),
        verify raw sig secret = some ev →
        ev.type = "checkout.session.completed" →
        ev.data = EventData.session s →
        resolveSessionOrderIdMetaFirst s = some oid →
        isUuid (some oid) = true →
        findRow db oid = some row →
        row.status = some "pending" →
        ((StripeWebhook.handler ctx false false now verify secret "POST" raw sig db).resp
            = HttpResponse.mk 200 (RespBody.json
                { emptyJson with received := some true, ok := some true })
          ∧ findRow (StripeWebhook.handler ctx false false now verify secret "POST" raw
                sig db).db oid
            = some (applyPatch (swSessionPatch ctx.fullSession now) row)
          ∧ (applyPatch (swSessionPatch ctx.fullSession now) row).status = some "paid"
          ∧ (applyPatch (swSessionPatch ctx.fullSession now) row).payment_status
            = row.payment_status
          ∧ (applyPatch (swSessionPatch ctx.fullSession now) row).payment_intent_id
            = (sessionPIObj ctx.fullSession).bind PaymentIntent.id
          ∧ (applyPatch (swSessionPatch ctx.fullSession now) row).charge_id
            = (StripeWebhook.extractCardBitsFromPI (sessionPIObj ctx.fullSession)).chargeId
          ∧ (applyPatch (swSessionPatch ctx.fullSession now) row).checkout_session_id
            = some ctx.fullSession.id
          ∧ (StripeWebhook.handler ctx false false now2 verify secret "POST" raw sig
                (StripeWebhook.handler ctx false false now verify secret "POST" raw sig
                  db).db).resp
            = HttpResponse.mk 200 (RespBody.json
                { emptyJson with
                  received := some true,
                  ok := some true,
                  reason := some "already_terminal" })
          ∧ (StripeWebhook.handler ctx false false now2 verify secret "POST" raw sig
                (StripeWebhook.handler ctx false false now verify secret "POST" raw sig
                  db).db).db
            = (StripeWebhook.handler ctx false false now verify secret "POST" raw sig
                db).db
          ∧ ∀ f p, Effect.updateRows f p ∉
              (StripeWebhook.handler ctx false false now2 verify secret "POST" raw sig
                (StripeWebhook.handler ctx false false now verify secret "POST" raw sig
                  db).db).ops)) := by
  refine ⟨?_, ?_, ?_⟩
  · intro verify secret raw now now2 sig ctx ev s db oid row hver hty hdata hres huuid
      hfind hpend hterm
    have hrowid : row.id = oid := findRow_id hfind
    have hmatch : matchesFilter (UpdateFilter.byIdNotCanceled oid) row = true := by
      simp [matchesFilter, hrowid, hpend]
    have hfirst :
        Part1.handleCheckoutSession ctx.fullSession false false now s db
          = StoreOutcome.mk { emptyJson with ok := some true }
              (updateWhere db (UpdateFilter.byIdNotCanceled oid)
                (part1SessionPatch ctx.fullSession now))
              [Effect.retrieveSession s.id, Effect.readById oid,
               Effect.updateRows (UpdateFilter.byIdNotCanceled oid)
                 (part1SessionPatch ctx.fullSession now),
               Effect.rpc "recalc_order_totals"] :=
      part1_handleCheckoutSession_pending ctx.fullSession s now db oid row hres huuid
        hfind hterm
    have hfind' :
        findRow (updateWhere db (UpdateFilter.byIdNotCanceled oid)
            (part1SessionPatch ctx.fullSession now)) oid
          = some (applyPatch (part1SessionPatch ctx.fullSession now) row) := by
      rw [findRow_updateWhere, hfind]
      simp [hmatch]
    have hterm' :
        Part1.isTerminal (applyPatch (part1SessionPatch ctx.fullSession now) row).status
          (applyPatch (part1SessionPatch ctx.fullSession now) row).payment_status = true := by
      show Part1.isTerminal (some "paid") (some "paid") = true
      decide
    have hsecond :
        Part1.handleCheckoutSession ctx.fullSession false false now2 s
            (updateWhere db (UpdateFilter.byIdNotCanceled oid)
              (part1SessionPatch ctx.fullSession now))
          = StoreOutcome.mk
              { emptyJson with ok := some true, reason := some "already_terminal" }
              (updateWhere db (UpdateFilter.byIdNotCanceled oid)
                (part1SessionPatch ctx.fullSession now))
              [Effect.retrieveSession s.id, Effect.readById oid] :=
      part1_handleCheckoutSession_terminal ctx.fullSession s now2
        (updateWhere db (UpdateFilter.byIdNotCanceled oid)
          (part1SessionPatch ctx.fullSession now)) oid
        (applyPatch (part1SessionPatch ctx.fullSession now) row) hres huuid hfind' hterm'
    unfold Part1.handler
    simp only [hver]
    rw [hty, hdata]
    simp only [EventData.asSession]
    simp [hfirst, hsecond, hfind']
    exact ⟨rfl, rfl, rfl, rfl, rfl, rfl⟩
  · intro ctx3 now now2 ev r db oid row hty hdata htr hres huuid hmiss hfails hfind hpend
    have hrowid : row.id = oid := findRow_id hfind
    have hmatch : matchesFilter (UpdateFilter.byIdNotCanceled oid) row = true := by
      simp [matchesFilter, hrowid, hpend]
    have hnotterm :
        (jsToLower (row.status.getD "") == "refunded"
          || jsToLower (row.status.getD "") == "canceled"
          || jsToLower (row.status.getD "") == "completed") = false := by
      rw [hpend]
      decide
    have hrpc1 :
        Part3.markOrderRefundedRpc oid (nn r.charge (nn r.id none)) db
          = updateWhere db (UpdateFilter.byIdNotCanceled oid)
              { emptyPatch with
                status := some (some "refunded"),
                charge_id := some (nn r.charge (nn r.id none)) } := by
      unfold Part3.markOrderRefundedRpc
      rw [hfind]
      simp only [hnotterm]
      simp
    have hfirst :
        Part3.handleRefundEvent ctx3 r db
          = Part3.P3Outcome.mk (some { emptyJson with ok := some true, orderId := some oid })
              (updateWhere db (UpdateFilter.byIdNotCanceled oid)
                { emptyPatch with
                  status := some (some "refunded"),
                  charge_id := some (nn r.charge (nn r.id none)) })
              [Effect.retrievePI ((orStr r.payment_intent
                  (orStr r.payment_intent_id none)).getD ""),
               Effect.rpc "mark_order_refunded"] := by
      unfold Part3.handleRefundEvent
      simp only [htr, hres, huuid, hmiss, hfails, hrpc1, if_true, Bool.not_true,
        Bool.false_eq_true, if_false]
      simp
    have hfind' :
        findRow (updateWhere db (UpdateFilter.byIdNotCanceled oid)
            { emptyPatch with
              status := some (some "refunded"),
              charge_id := some (nn r.charge (nn r.id none)) }) oid
          = some { row with
              status := some "refunded",
              charge_id := nn r.charge (nn r.id none) } := by
      rw [findRow_updateWhere, hfind]
      simp only [Option.map_some', hmatch, if_true]
      simp [applyPatch, emptyPatch]
    have hrpc2 :
        Part3.markOrderRefundedRpc oid (nn r.charge (nn r.id none))
            (updateWhere db (UpdateFilter.byIdNotCanceled oid)
              { emptyPatch with
                status := some (some "refunded"),
                charge_id := some (nn r.charge (nn r.id none)) })
          = updateWhere db (UpdateFilter.byIdNotCanceled oid)
              { emptyPatch with
                status := some (some "refunded"),
                charge_id := some (nn r.charge (nn r.id none)) } := by
      unfold Part3.markOrderRefundedRpc
      rw [hfind']
      simp
      intro h1 _ _
      exact absurd (by decide) h1
    have hsecond :
        Part3.handleRefundEvent ctx3 r
            (updateWhere db (UpdateFilter.byIdNotCanceled oid)
              { emptyPatch with
                status := some (some "refunded"),
                charge_id := some (nn r.charge (nn r.id none)) })
          = Part3.P3Outcome.mk (some { emptyJson with ok := some true, orderId := some oid })
              (updateWhere db (UpdateFilter.byIdNotCanceled oid)
                { emptyPatch with
                  status := some (some "refunded"),
                  charge_id := some (nn r.charge (nn r.id none)) })
              [Effect.retrievePI ((orStr r.payment_intent
                  (orStr r.payment_intent_id none)).getD ""),
               Effect.rpc "mark_order_refunded"] := by
      unfold Part3.handleRefundEvent
      simp only [htr, hres, huuid, hmiss, hfails, hrpc2, if_true, Bool.not_true,
        Bool.false_eq_true, if_false]
      simp
    unfold Part3.dispatch
    rw [hty, hdata]
    simp only [EventData.asRefund]
    simp [hfirst, hsecond, hfind']
  · intro verify secret raw now now2 sig ctx ev s db oid row hver hty hdata hres huuid
      hfind hpend
    have hrowid : row.id = oid := findRow_id hfind
    have hterm : StripeWebhook.isTerminal row.status = false := by
      rw [hpend]
      decide
    have hmatch : matchesFilter (UpdateFilter.byId (some oid)) row = true := by
      simp [matchesFilter, hrowid]
    have hfirst :=
      sw_handleCheckoutSession_ok ctx.fullSession s now db oid row hres huuid hfind hterm
    have hfind' :
        findRow (updateWhere db (UpdateFilter.byId (some oid))
            (swSessionPatch ctx.fullSession now)) oid
          = some (applyPatch (swSessionPatch ctx.fullSession now) row) := by
      rw [findRow_updateWhere, hfind]
      simp [hmatch]
    have hterm' :
        StripeWebhook.isTerminal
          (applyPatch (swSessionPatch ctx.fullSession now) row).status = true := by
      show StripeWebhook.isTerminal (some "paid") = true
      decide
    have hsecond :=
      sw_handleCheckoutSession_terminal ctx.fullSession s now2
        (updateWhere db (UpdateFilter.byId (some oid)) (swSessionPatch ctx.fullSession now))
        oid (applyPatch (swSessionPatch ctx.fullSession now) row) hres huuid hfind' hterm'
    unfold StripeWebhook.handler
    simp only [hver]
    rw [hty, hdata]
    simp only [EventData.asSession]
    simp [hfirst, hsecond, hfind', withReceived]
    exact ⟨rfl, rfl, rfl, rfl, rfl⟩

/-- Order id of the pending order in the concrete C1 scenario. -/
def c1id : String := "11111111-1111-1111-1111-111111111111"

/-- The pending order row of the concrete C1 scenario. -/
def c1row : OrderRow :=
  OrderRow.mk c1id (some "pending") (some "unpaid") none none none none none none none
    none none

/-- The visa card charge of the concrete C1 scenario. -/
def c1charge : Charge :=
  Charge.mk (some "ch_1")
    (some (PaymentMethodDetails.mk (some (CardDetails.mk (some "visa") (some "4242")))
      false false (some "card")))
    none none

/-- The expanded payment intent of the concrete C1 scenario. -/
def c1pi : PaymentIntent :=
  PaymentIntent.mk (some "pi_1") (some "succeeded") (some c1charge) none none [] none none

/-- The retrieved checkout session of the concrete C1 scenario. -/
def c1full : Session :=
  Session.mk "cs_1" (some (Metadata.mk (some c1id) none)) none (some (PIRef.obj c1pi))
    (some 2500) (some "usd") (some "paid") (some "complete")

/-- The event's session object of the concrete C1 scenario. -/
def c1sess : Session :=
  Session.mk "cs_1" (some (Metadata.mk (some c1id) none)) none none none none none none

/-- The checkout-completed event of the concrete C1 scenario. -/
def c1event : Event :=
  Event.mk "evt_1" "checkout.session.completed" (EventData.session c1sess)

/-- Provider context of the concrete C1 scenario. -/
def c1ctx : ProviderCtx := ProviderCtx.mk c1full c1pi

/-- Strictly valid order id for the concrete C1 refund scenario. -/
def c1rid : String := "33333333-3333-4333-8333-333333333333"

/-- The pending order row of the concrete C1 refund scenario. -/
def c1rrow : OrderRow :=
  OrderRow.mk c1rid (some "pending") (some "unpaid") none none none none none none none
    none none

/-- The refund object of the concrete C1 refund scenario. -/
def c1rrefund : RefundObj :=
  RefundObj.mk (some "re_1") (some "ch_2") (some "pi_2") none (some 2500) (some "usd")
    (some "requested_by_customer")

/-- The retrieved intent of the concrete C1 refund scenario, carrying the
order id in its metadata. -/
def c1rpi : PaymentIntent :=
  PaymentIntent.mk (some "pi_2") (some "succeeded") none none
    (some (Metadata.mk (some c1rid) none)) [] none none

/-- Part_003 context of the concrete C1 refund scenario. -/
def c1rctx : Part3.P3Ctx :=
  Part3.P3Ctx.mk EventData.other.asSession EventData.other.asIntent c1rpi none
    false false false

/-- The refund event of the concrete C1 refund scenario. -/
def c1revent : Event := Event.mk "evt_r1" "charge.refunded" (EventData.refund c1rrefund)

/-- Witness for C1: the Scenario A checkout event marks the pending order
paid with the visa metadata, reprocessing no-ops, and the refund event marks
a pending order refunded idempotently. -/
theorem C1_witness :
    ((Part1.handler c1ctx false false "t1" (fun _ _ _ => some c1event) "whsec" "POST"
        "raw" (some "sig") [c1row]).resp
      = HttpResponse.mk 200 (RespBody.json { emptyJson with ok := some true })
    ∧ findRow (Part1.handler c1ctx false false "t1" (fun _ _ _ => some c1event) "whsec"
        "POST" "raw" (some "sig") [c1row]).db c1id
      = some (applyPatch (part1SessionPatch c1full "t1") c1row)
    ∧ (applyPatch (part1SessionPatch c1full "t1") c1row).status = some "paid"
    ∧ (applyPatch (part1SessionPatch c1full "t1") c1row).payment_status = some "paid"
    ∧ (Part1.handler c1ctx false false "t2" (fun _ _ _ => some c1event) "whsec" "POST"
        "raw" (some "sig")
        (Part1.handler c1ctx false false "t1" (fun _ _ _ => some c1event) "whsec" "POST"
          "raw" (some "sig") [c1row]).db).db
      = (Part1.handler c1ctx false false "t1" (fun _ _ _ => some c1event) "whsec" "POST"
          "raw" (some "sig") [c1row]).db)
    ∧ (findRow (Part3.dispatch c1rctx "t1" c1revent [c1rrow]).db c1rid
      = some { c1rrow with status := some "refunded", charge_id := some "ch_2" }
    ∧ (Part3.dispatch c1rctx "t2" c1revent
        (Part3.dispatch c1rctx "t1" c1revent [c1rrow]).db).db
      = (Part3.dispatch c1rctx "t1" c1revent [c1rrow]).db)
    ∧ (findRow (StripeWebhook.handler c1ctx false false "t1" (fun _ _ _ => some c1event)
        "whsec" "POST" "raw" (some "sig") [c1row]).db c1id
      = some (applyPatch (swSessionPatch c1full "t1") c1row)
    ∧ (applyPatch (swSessionPatch c1full "t1") c1row).payment_status
      = c1row.payment_status) := by
  refine ⟨?_, ?_, ?_⟩
  · have h := C1_paid_refund_exactly_once.1 (fun _ _ _ => some c1event) "whsec" "raw"
      "t1" "t2" (some "sig") c1ctx c1event c1sess [c1row] c1id c1row rfl rfl rfl
      (by decide) (by decide) (by decide) (by decide) (by decide)
    exact ⟨h.1, h.2.1, h.2.2.1, h.2.2.2.1, h.2.2.2.2.2.2.2.2.2.1⟩
  · have h := C1_paid_refund_exactly_once.2.1 c1rctx "t1" "t2" c1revent c1rrefund
      [c1rrow] c1rid c1rrow rfl rfl (by decide) (by decide) (by decide) rfl rfl
      (by decide) (by decide)
    exact ⟨h.2.1, h.2.2⟩
  · have h := C1_paid_refund_exactly_once.2.2 (fun _ _ _ => some c1event) "whsec" "raw"
      "t1" "t2" (some "sig") c1ctx c1event c1sess [c1row] c1id c1row rfl rfl rfl
      (by decide) (by decide) (by decide) (by decide)
    exact ⟨h.2.1, h.2.2.2.1⟩

/-- C1 counterexample: the stripe-webhook.js handler, processing the same
validly signed Scenario A event against the same pending order, persists the
paid status and every provider identifier but leaves payment_status at
unpaid: its update payload carries no payment_status column, refuting the
claimed persistence of payment_status paid on this cited path. -/
theorem C1_counterexample_sw_payment_status_not_written :
    findRow (StripeWebhook.handler c1ctx false false "t1" (fun _ _ _ => some c1event)
        "whsec" "POST" "raw" (some "sig") [c1row]).db c1id
      = some { c1row with
          status := some "paid",
          paid_at := some "t1",
          payment_method_brand := some "visa",
          payment_last4 := some "4242",
          payment_intent_id := some "pi_1",
          charge_id := some "ch_1",
          checkout_session_id := some "cs_1",
          total_cents := some 2500 }
    ∧ ({ c1row with
          status := some "paid",
          paid_at := some "t1",
          payment_method_brand := some "visa",
          payment_last4 := some "4242",
          payment_intent_id := some "pi_1",
          charge_id := some "ch_1",
          checkout_session_id := some "cs_1",
          total_cents := some 2500 } : OrderRow).payment_status = some "unpaid"
    ∧ (some "unpaid" : Option String) ≠ some "paid" := by
  refine ⟨rfl, rfl, by decide⟩

/-- Session used to refute the claimed resolver priority: both a metadata
order id and a client reference id are present and differ. -/
def c7session : Session :=
  Session.mk "cs_7"
    (some (Metadata.mk (some "aaaaaaaa-aaaa-aaaa-aaaa-aaaaaaaaaaaa") none))
    (some "bbbbbbbb-bbbb-bbbb-bbbb-bbbbbbbbbbbb")
    none none none none none

/-- C7 counterexample: the webhook.js and part_000 session resolver consults
the client reference id before the metadata order id, so with both present it
returns the client reference id, not the metadata value. -/
theorem C7_counterexample_client_ref_wins :
    resolveSessionOrderIdClientFirst c7session
        = some "bbbbbbbb-bbbb-bbbb-bbbb-bbbbbbbbbbbb"
      ∧ c7session.metadata.bind Metadata.order_id
        = some "aaaaaaaa-aaaa-aaaa-aaaa-aaaaaaaaaaaa"
      ∧ resolveSessionOrderIdClientFirst c7session
        ≠ c7session.metadata.bind Metadata.order_id := by
  refine ⟨rfl, rfl, ?_⟩
  decide

/-- Session carrying only a client reference id and no metadata, ignored by
the metadata-only part_002 resolver. -/
def c7crefOnly : Session :=
  Session.mk "cs_7b" none (some "bbbbbbbb-bbbb-bbbb-bbbb-bbbbbbbbbbbb")
    none none none none none

/-- C7 (amended): the stripe-webhook.js, part_001 and part_003 session
resolvers return the first truthy source among metadata order_id, metadata
orderId and the client reference id, so for them the metadata value wins
when both are present; the part_002 session resolver reads metadata order_id
then orderId only and never consults the client reference id, so an event
carrying only a client reference id resolves to nothing there; the
webhook.js and part_000 resolvers instead consult the client reference id
first, so for them a present client reference id wins. -/
theorem C7_amended_resolver_priority :
    (∀ s : Session, truthy (s.metadata.bind Metadata.order_id) = true →
        resolveSessionOrderIdMetaFirst s = s.metadata.bind Metadata.order_id)
    ∧ (∀ s : Session, truthy (s.metadata.bind Metadata.order_id) = false →
        truthy (s.metadata.bind Metadata.orderId) = true →
        resolveSessionOrderIdMetaFirst s = s.metadata.bind Metadata.orderId)
    ∧ (∀ s : Session, truthy (s.metadata.bind Metadata.order_id) = false →
        truthy (s.metadata.bind Metadata.orderId) = false →
        resolveSessionOrderIdMetaFirst s = orStr s.client_reference_id none)
    ∧ (∀ (s : Session) (m : Metadata), s.metadata = some m → truthy m.order_id = true →
        orStr (Part3.readOrderIdFromMetaS s) (orStr s.client_reference_id none)
          = m.order_id)
    ∧ (∀ s : Session, resolveSessionOrderIdMetaOnly s
        = resolveSessionOrderIdMetaOnly { s with client_reference_id := none })
    ∧ (∀ s : Session, s.metadata = none → resolveSessionOrderIdMetaOnly s = none)
    ∧ (∀ (s : Session) (m : Metadata), s.metadata = some m → truthy m.order_id = true →
        resolveSessionOrderIdMetaOnly s = m.order_id)
    ∧ (∀ s : Session, truthy s.client_reference_id = true →
        resolveSessionOrderIdClientFirst s = s.client_reference_id)
    ∧ (∀ s : Session, truthy s.client_reference_id = false →
        resolveSessionOrderIdClientFirst s = orStr (s.metadata.bind Metadata.order_id) none) := by
  refine ⟨?_, ?_, ?_, ?_, ?_, ?_, ?_, ?_, ?_⟩
  · intro s h
    simp [resolveSessionOrderIdMetaFirst, orStr, h]
  · intro s h1 h2
    simp [resolveSessionOrderIdMetaFirst, orStr, h1, h2]
  · intro s h1 h2
    simp [resolveSessionOrderIdMetaFirst, orStr, h1, h2]
  · intro s m hm h
    simp [Part3.readOrderIdFromMetaS, hm, orStr, h]
  · intro s
    rfl
  · intro s hm
    simp [resolveSessionOrderIdMetaOnly, hm, orStr, truthy]
  · intro s m hm h
    simp [resolveSessionOrderIdMetaOnly, hm, orStr, h]
  · intro s h
    simp [resolveSessionOrderIdClientFirst, orStr, h]
  · intro s h
    simp [resolveSessionOrderIdClientFirst, orStr, h]

/-- Witness for the amended C7 at concrete sessions: the metadata value wins
for the meta-first resolver, the client reference wins for webhook.js, the
part_002 resolver also picks the metadata value, and a session with only a
client reference id resolves to nothing under part_002. -/
theorem C7_amended_witness :
    resolveSessionOrderIdMetaFirst c7session
        = some "aaaaaaaa-aaaa-aaaa-aaaa-aaaaaaaaaaaa"
      ∧ resolveSessionOrderIdClientFirst c7session
        = some "bbbbbbbb-bbbb-bbbb-bbbb-bbbbbbbbbbbb"
      ∧ resolveSessionOrderIdMetaOnly c7session
        = some "aaaaaaaa-aaaa-aaaa-aaaa-aaaaaaaaaaaa"
      ∧ resolveSessionOrderIdMetaOnly c7crefOnly = none := by
  refine ⟨?_, ?_, ?_, ?_⟩
  · exact (C7_amended_resolver_priority.1 c7session (by decide)).trans rfl
  · exact (C7_amended_resolver_priority.2.2.2.2.2.2.2.1 c7session (by decide)).trans rfl
  · exact (C7_amended_resolver_priority.2.2.2.2.2.2.1 c7session
      (Metadata.mk (some "aaaaaaaa-aaaa-aaaa-aaaa-aaaaaaaaaaaa") none) rfl
      (by decide)).trans rfl
  · exact C7_amended_resolver_priority.2.2.2.2.2.1 c7crefOnly rfl

/-- Charge carrying a redirect-style grabpay method and no card, used to
refute the claimed redirect handling of extractCardBitsFromPI. -/
def c8charge : Charge :=
  Charge.mk (some "ch_8")
    (some (PaymentMethodDetails.mk none true false (some "grabpay"))) none none

/-- Payment intent whose latest charge is the grabpay charge. -/
def c8pi : PaymentIntent :=
  PaymentIntent.mk (some "pi_8") (some "succeeded") (some c8charge) none none [] none none

/-- C8 counterexample: on a charge whose payment-method-details carry a
redirect-style grabpay method, extractCardBitsFromPI of stripe-webhook.js
returns a null brand rather than the method's type tag. -/
theorem C8_counterexample_redirect_brand_null :
    StripeWebhook.extractCardBitsFromPI (some c8pi) = CardBits.mk none none (some "ch_8")
      ∧ (StripeWebhook.extractCardBitsFromPI (some c8pi)).brand ≠ some "grabpay" := by
  refine ⟨rfl, ?_⟩
  decide

/-- C8 (amended): the two extractors split the claimed contract.
extractCardBitsFromPI of stripe-webhook.js returns card brand and last4 with
the charge id, falls back to the intent's attached payment method's card when
the primary charge is absent, and returns a null brand for redirect-style
methods; extractPmDetails of webhook.js maps a card to its brand and last4
and maps redirect-style methods to their type tag with a null last4, without
any charge id or fallback.  Both are total and degrade absent fields to
null. -/
theorem C8_amended_extractors :
    (∀ (pi : PaymentIntent) (ch : Charge) (pmd : PaymentMethodDetails) (cd : CardDetails),
        pi.latest_charge = some ch → ch.payment_method_details = some pmd →
        pmd.card = some cd → truthy cd.brand = true → truthy cd.last4 = true →
        StripeWebhook.extractCardBitsFromPI (some pi) = CardBits.mk cd.brand cd.last4 ch.id)
    ∧ (∀ (pi : PaymentIntent) (pm : PaymentMethod) (cd : CardDetails),
        pi.latest_charge = none → pi.payment_method = some pm → pm.card = some cd →
        StripeWebhook.extractCardBitsFromPI (some pi) = CardBits.mk cd.brand cd.last4 none)
    ∧ (∀ (pi : PaymentIntent) (ch : Charge) (pmd : PaymentMethodDetails),
        pi.latest_charge = some ch → ch.payment_method_details = some pmd →
        pmd.card = none → pi.payment_method = none →
        StripeWebhook.extractCardBitsFromPI (some pi) = CardBits.mk none none ch.id)
    ∧ (∀ (ch : Charge) (pmd : PaymentMethodDetails) (cd : CardDetails),
        ch.payment_method_details = some pmd → pmd.card = some cd →
        truthy cd.brand = true →
        Webhook.extractPmDetails (some ch) = PmDetails.mk cd.brand (orStr cd.last4 none))
    ∧ (∀ (ch : Charge) (pmd : PaymentMethodDetails),
        ch.payment_method_details = some pmd → pmd.card = none → pmd.grabpay = true →
        Webhook.extractPmDetails (some ch) = PmDetails.mk (some "grabpay") none)
    ∧ (∀ (ch : Charge) (pmd : PaymentMethodDetails),
        ch.payment_method_details = some pmd → pmd.card = none → pmd.grabpay = false →
        pmd.paynow = true →
        Webhook.extractPmDetails (some ch) = PmDetails.mk (some "paynow") none)
    ∧ StripeWebhook.extractCardBitsFromPI none = CardBits.mk none none none
    ∧ Webhook.extractPmDetails none = PmDetails.mk none none := by
  refine ⟨?_, ?_, ?_, ?_, ?_, ?_, rfl, rfl⟩
  · intro pi ch pmd cd h1 h2 h3 h4 h5
    simp [StripeWebhook.extractCardBitsFromPI, h1, h2, h3, h4, h5]
  · intro pi pm cd h1 h2 h3
    simp [StripeWebhook.extractCardBitsFromPI, nn_none, nn_none_left, h1, h2, h3, truthy]
  · intro pi ch pmd h1 h2 h3 h4
    simp [StripeWebhook.extractCardBitsFromPI, nn_none, nn_none_left, h1, h2, h3, h4, truthy]
  · intro ch pmd cd h1 h2 h3
    simp [Webhook.extractPmDetails, h1, h2, orStr, h3]
  · intro ch pmd h1 h2 h3
    simp [Webhook.extractPmDetails, h1, h2, h3]
  · intro ch pmd h1 h2 h3 h4
    simp [Webhook.extractPmDetails, h1, h2, h3, h4]

/-- Witness for the amended C8: a concrete fallback extraction, a concrete
grabpay extraction, and the degenerate inputs. -/
theorem C8_amended_witness :
    StripeWebhook.extractCardBitsFromPI
        (some (PaymentIntent.mk (some "pi_9") none none
          (some (PaymentMethod.mk (some (CardDetails.mk (some "visa") (some "4242")))))
          none [] none none))
      = CardBits.mk (some "visa") (some "4242") none
    ∧ Webhook.extractPmDetails (some c8charge) = PmDetails.mk (some "grabpay") none := by
  constructor
  · exact (C8_amended_extractors.2.1
      (PaymentIntent.mk (some "pi_9") none none
        (some (PaymentMethod.mk (some (CardDetails.mk (some "visa") (some "4242")))))
        none [] none none)
      (PaymentMethod.mk (some (CardDetails.mk (some "visa") (some "4242"))))
      (CardDetails.mk (some "visa") (some "4242")) rfl rfl rfl).trans rfl
  · exact (C8_amended_extractors.2.2.2.2.1 c8charge
      (PaymentMethodDetails.mk none true false (some "grabpay")) rfl rfl rfl).trans rfl

theorem sw_handleCheckoutSession_updfail
    (full s : Session) (now : String) (db : List OrderRow) (oid : String) (row : OrderRow)
    (hres : resolveSessionOrderIdMetaFirst s = some oid)
    (huuid : isUuid (some oid) = true)
    (hfind : findRow db oid = some row)
    (hterm : StripeWebhook.isTerminal row.status = false) :
    StripeWebhook.handleCheckoutSession full false true now s db
      = StoreOutcome.mk { emptyJson with ok := some false, reason := some "update_failed" }
          db [Effect.retrieveSession s.id, Effect.readById oid,
            Effect.updateRows (UpdateFilter.byId (some oid)) (swSessionPatch full now)] := by
  have hne := isUuid_some_ne_empty huuid
  unfold StripeWebhook.handleCheckoutSession StripeWebhook.markOrderPaid
  rw [hres]
  simp only [huuid, Bool.not_true, Bool.false_eq_true, if_false, orStr_some_of_ne hne,
    Option.getD_some, hfind, hterm]
  simp [swSessionPatch]

/-- C9 (amended): on the asynchronous stripe-webhook.js path a failure of the
conditional order write is surfaced as ok false with reason update_failed but
the HTTP status is 200, not a 5xx; the part_002 variant instead responds 500
with ok false and no reason string; on the synchronous confirm-session path a
failed backfill write is swallowed and the response stays HTTP 200 with ok
true. -/
theorem C9_amended_update_failure_surfacing :
    (∀ (verify : String → Option String → String → Option Event)
        (secret raw now : String) (sig : Option String)
        (ctx : ProviderCtx) (ev : Event) (s : Session)
        (db : List OrderRow) (oid : String) (row : OrderRow),
        verify raw sig secret = some ev →
        ev.type = "checkout.session.completed" →
        ev.data = EventData.session s →
        resolveSessionOrderIdMetaFirst s = some oid →
        isUuid (some oid) = true →
        findRow db oid = some row →
        StripeWebhook.isTerminal row.status = false →
        ((StripeWebhook.handler ctx false true now verify secret "POST" raw sig db).resp
            = HttpResponse.mk 200 (RespBody.json
                { emptyJson with
                  received := some true,
                  ok := some false,
                  reason := some "update_failed" })
          ∧ (StripeWebhook.handler ctx false true now verify secret "POST" raw sig db).db
            = db))
    ∧ (∀ (verify : String → Option String → String → Option Event)
        (secret raw now : String) (sig : Option String)
        (ctx : ProviderCtx) (ev : Event) (s : Session)
        (db : List OrderRow) (oid : String),
        verify raw sig secret = some ev →
        ev.type = "checkout.session.completed" →
        ev.data = EventData.session s →
        orStr (s.metadata.bind Metadata.order_id)
            (orStr (s.metadata.bind Metadata.orderId) none) = some oid →
        ((Part2.handler ctx true now verify secret "POST" raw sig db).resp
            = HttpResponse.mk 500 (RespBody.json { emptyJson with ok := some false })
          ∧ (Part2.handler ctx true now verify secret "POST" raw sig db).db = db))
    ∧ (∀ (full : Session) (sid : String) (db : List OrderRow) (readF : Bool),
        sid ≠ "" →
        ∃ oidOpt,
          (ConfirmSession.handler false readF true full "GET" (some sid) db).resp
            = HttpResponse.mk 200 (RespBody.json
                { emptyJson with
                  ok := some true,
                  paid := some (ConfirmSession.isPaid full (sessionPIObj full)),
                  orderId := oidOpt })) := by
  refine ⟨?_, ?_, ?_⟩
  · intro verify secret raw now sig ctx ev s db oid row hver hty hdata hres huuid
      hfind hterm
    have h := sw_handleCheckoutSession_updfail ctx.fullSession s now db oid row hres
      huuid hfind hterm
    unfold StripeWebhook.handler
    simp only [hver]
    rw [hty, hdata]
    simp only [EventData.asSession]
    simp [h, withReceived]
  · intro verify secret raw now sig ctx ev s db oid hver hty hdata hres
    unfold Part2.handler resolveSessionOrderIdMetaOnly
    simp only [hver]
    rw [hty, hdata]
    simp only [EventData.asSession]
    rw [hres]
    simp
  · intro full sid db readF hsid
    unfold ConfirmSession.handler
    simp [hsid]

theorem logStripeEventOnce_dup_msg :
    Part3.logStripeEventOnce (Part3.InsertOutcome.errMsg
        "duplicate key value violates unique constraint \"stripe_event_logs_event_id_key\"")
      = Part3.LogResult.alreadyProcessed := by decide

theorem logStripeEventOnce_rel_msg :
    Part3.logStripeEventOnce (Part3.InsertOutcome.errMsg
        "relation \"stripe_event_logs\" does not exist")
      = Part3.LogResult.loggingDisabled := by decide

/-- Classification of the event-log insert outcome by logStripeEventOnce:
already-processed is signalled exactly for the uniqueness violation, provided
other injected storage errors do not mention the word duplicate. -/
theorem logStripeEventOnce_classification (tm : Bool) (oe : Option String)
    (log : List String) (eid : String)
    (hmsg : ∀ m, oe = some m → Part3.containsSubstr (jsToLower m) "duplicate" = false) :
    (Part3.logStripeEventOnce (Part3.eventLogInsert tm oe log eid).1
        = Part3.LogResult.alreadyProcessed)
      ↔ (oe = none ∧ tm = false ∧ log.contains eid = true) := by
  rcases oe with _ | m
  · cases tm
    · cases hc : log.contains eid
      · have hcm : ¬ eid ∈ log := by simpa using hc
        simp [Part3.eventLogInsert, hc, hcm, Part3.logStripeEventOnce]
      · have hcm : eid ∈ log := by simpa using hc
        simp [Part3.eventLogInsert, hc, hcm, logStripeEventOnce_dup_msg]
    · simp [Part3.eventLogInsert, logStripeEventOnce_rel_msg]
  · have hm := hmsg m rfl
    simp only [Part3.eventLogInsert, Part3.logStripeEventOnce, hm, Bool.false_eq_true,
      if_false]
    cases hcr : (Part3.containsSubstr (jsToLower m) "relation"
        && Part3.containsSubstr (jsToLower m) "does not exist") <;> simp

/-- C5: the part_003 handler short-circuits with the duplicate acknowledgment
(HTTP 200, reason duplicate_event, no dispatch, store unchanged) exactly when
the event-log insert reports a uniqueness violation; any other insert failure
(missing table, other storage error) and the successful insert alike fall
through to normal dispatch, exactly as if logging were disabled. -/
theorem C5_duplicate_short_circuit
    (ctx3 : Part3.P3Ctx) (tableMissing : Bool) (otherErr : Option String)
    (log : List String) (now : String)
    (verify : String → Option String → String → Option Event)
    (secret raw : String) (sig : Option String) (ev : Event) (db : List OrderRow)
    (hver : verify raw sig secret = some ev)
    (hmsg : ∀ m, otherErr = some m →
      Part3.containsSubstr (jsToLower m) "duplicate" = false) :
    ((Part3.logStripeEventOnce
          (Part3.eventLogInsert tableMissing otherErr log ev.id).1
        = Part3.LogResult.alreadyProcessed)
      ↔ (otherErr = none ∧ tableMissing = false ∧ log.contains ev.id = true))
    ∧ ((otherErr = none ∧ tableMissing = false ∧ log.contains ev.id = true) →
        ((Part3.handler ctx3 tableMissing otherErr log now verify secret "POST" raw sig
            db).1.resp
          = HttpResponse.mk 200 (RespBody.json
              { emptyJson with ok := some true, reason := some "duplicate_event" })
        ∧ (Part3.handler ctx3 tableMissing otherErr log now verify secret "POST" raw sig
            db).1.db = db
        ∧ (Part3.handler ctx3 tableMissing otherErr log now verify secret "POST" raw sig
            db).1.ops = [Effect.insertEventLog ev.id]))
    ∧ (¬ (otherErr = none ∧ tableMissing = false ∧ log.contains ev.id = true) →
        ((Part3.handler ctx3 tableMissing otherErr log now verify secret "POST" raw sig
            db).1.resp = (Part3.dispatch ctx3 now ev db).resp
        ∧ (Part3.handler ctx3 tableMissing otherErr log now verify secret "POST" raw sig
            db).1.db = (Part3.dispatch ctx3 now ev db).db
        ∧ (Part3.handler ctx3 tableMissing otherErr log now verify secret "POST" raw sig
            db).1.ops
          = Effect.insertEventLog ev.id :: (Part3.dispatch ctx3 now ev db).ops)) := by
  have hchar := logStripeEventOnce_classification tableMissing otherErr log ev.id hmsg
  refine ⟨hchar, ?_, ?_⟩
  · rintro ⟨h1, h2, h3⟩
    have heq := hchar.2 ⟨h1, h2, h3⟩
    unfold Part3.handler
    simp only [hver]
    simp [heq]
  · intro hn
    have hne : Part3.logStripeEventOnce
        (Part3.eventLogInsert tableMissing otherErr log ev.id).1
        ≠ Part3.LogResult.alreadyProcessed := fun h => hn (hchar.1 h)
    unfold Part3.handler
    simp only [hver]
    simp [hne]

/-- Witness for C5: a concrete redelivered event short-circuits as a
duplicate, and the same event with a failing log store proceeds to dispatch. -/
theorem C5_witness :
    ((Part3.logStripeEventOnce
          (Part3.eventLogInsert false none ["evt_5"] "evt_5").1
        = Part3.LogResult.alreadyProcessed)
      ↔ (none = (none : Option String) ∧ false = false
          ∧ ["evt_5"].contains "evt_5" = true))
    ∧ (Part3.handler
        (Part3.P3Ctx.mk EventData.other.asSession EventData.other.asIntent
          EventData.other.asIntent none false false false)
        false none ["evt_5"] "t5" (fun _ _ _ => some (Event.mk "evt_5" "other" EventData.other))
        "whsec" "POST" "raw" (some "sig") []).1.resp
      = HttpResponse.mk 200 (RespBody.json
          { emptyJson with ok := some true, reason := some "duplicate_event" })
    ∧ (Part3.handler
        (Part3.P3Ctx.mk EventData.other.asSession EventData.other.asIntent
          EventData.other.asIntent none false false false)
        false (some "connection timeout") [] "t5"
        (fun _ _ _ => some (Event.mk "evt_5" "other" EventData.other))
        "whsec" "POST" "raw" (some "sig") []).1.resp
      = (Part3.dispatch
          (Part3.P3Ctx.mk EventData.other.asSession EventData.other.asIntent
            EventData.other.asIntent none false false false)
          "t5" (Event.mk "evt_5" "other" EventData.other) []).resp := by
  refine ⟨?_, ?_, ?_⟩
  · exact (C5_duplicate_short_circuit
      (Part3.P3Ctx.mk EventData.other.asSession EventData.other.asIntent
        EventData.other.asIntent none false false false)
      false none ["evt_5"] "t5" (fun _ _ _ => some (Event.mk "evt_5" "other" EventData.other))
      "whsec" "raw" (some "sig") (Event.mk "evt_5" "other" EventData.other) [] rfl
      (fun m h => Option.noConfusion h)).1
  · exact ((C5_duplicate_short_circuit
      (Part3.P3Ctx.mk EventData.other.asSession EventData.other.asIntent
        EventData.other.asIntent none false false false)
      false none ["evt_5"] "t5" (fun _ _ _ => some (Event.mk "evt_5" "other" EventData.other))
      "whsec" "raw" (some "sig") (Event.mk "evt_5" "other" EventData.other) [] rfl
      (fun m h => Option.noConfusion h)).2.1 ⟨rfl, rfl, by decide⟩).1
  · exact ((C5_duplicate_short_circuit
      (Part3.P3Ctx.mk EventData.other.asSession EventData.other.asIntent
        EventData.other.asIntent none false false false)
      false (some "connection timeout") [] "t5"
      (fun _ _ _ => some (Event.mk "evt_5" "other" EventData.other))
      "whsec" "raw" (some "sig") (Event.mk "evt_5" "other" EventData.other) [] rfl
      (fun m h => by
        cases h
        decide)).2.2 (by simp)).1

/-- Order id of the pending order in the concrete C9 scenario. -/
def c9id : String := "99999999-9999-9999-9999-999999999999"

/-- The pending order row of the concrete C9 scenario. -/
def c9row : OrderRow :=
  OrderRow.mk c9id (some "pending") (some "unpaid") none none none none none none none
    none none

/-- The event session of the concrete C9 scenario. -/
def c9sess : Session :=
  Session.mk "cs_9" (some (Metadata.mk (some c9id) none)) none none none none none none

/-- The checkout-completed event of the concrete C9 scenario. -/
def c9event : Event :=
  Event.mk "evt_9" "checkout.session.completed" (EventData.session c9sess)

/-- Provider context of the concrete C9 scenario. -/
def c9ctx : ProviderCtx := ProviderCtx.mk c9sess EventData.other.asIntent

/-- C9 counterexample: on stripe-webhook.js a failing conditional write is
reported with reason update_failed, but the HTTP status is 200 and not a 5xx,
so the provider is not invited to retry. -/
theorem C9_counterexample_update_failed_is_200 :
    (StripeWebhook.handler c9ctx false true "t9" (fun _ _ _ => some c9event) "whsec"
        "POST" "raw" (some "sig") [c9row]).resp.status = 200
    ∧ ¬ (500 ≤ (StripeWebhook.handler c9ctx false true "t9" (fun _ _ _ => some c9event)
        "whsec" "POST" "raw" (some "sig") [c9row]).resp.status
        ∧ (StripeWebhook.handler c9ctx false true "t9" (fun _ _ _ => some c9event)
          "whsec" "POST" "raw" (some "sig") [c9row]).resp.status < 600)
    ∧ (StripeWebhook.handler c9ctx false true "t9" (fun _ _ _ => some c9event) "whsec"
        "POST" "raw" (some "sig") [c9row]).resp.body
      = RespBody.json
        { emptyJson with
          received := some true,
          ok := some false,
          reason := some "update_failed" } := by
  refine ⟨rfl, by decide, rfl⟩

/-- Witness for the amended C9 at the concrete C9 scenario and a concrete
part_002 and confirm-session request. -/
theorem C9_amended_witness :
    ((StripeWebhook.handler c9ctx false true "t9" (fun _ _ _ => some c9event) "whsec"
        "POST" "raw" (some "sig") [c9row]).db = [c9row])
    ∧ ((Part2.handler c9ctx true "t9" (fun _ _ _ => some c9event) "whsec" "POST" "raw"
        (some "sig") [c9row]).resp
      = HttpResponse.mk 500 (RespBody.json { emptyJson with ok := some false }))
    ∧ (∃ oidOpt,
        (ConfirmSession.handler false false true c9sess "GET" (some "cs_9") [c9row]).resp
          = HttpResponse.mk 200 (RespBody.json
              { emptyJson with
                ok := some true,
                paid := some (ConfirmSession.isPaid c9sess (sessionPIObj c9sess)),
                orderId := oidOpt })) := by
  refine ⟨?_, ?_, ?_⟩
  · exact (C9_amended_update_failure_surfacing.1 (fun _ _ _ => some c9event) "whsec"
      "raw" "t9" (some "sig") c9ctx c9event c9sess [c9row] c9id c9row rfl rfl rfl
      (by decide) (by decide) (by decide) (by decide)).2
  · exact (C9_amended_update_failure_surfacing.2.1 (fun _ _ _ => some c9event) "whsec"
      "raw" "t9" (some "sig") c9ctx c9event c9sess [c9row] c9id rfl rfl rfl
      (by decide)).1
  · exact C9_amended_update_failure_surfacing.2.2 c9sess "cs_9" [c9row] false
      (by decide)

/-- Frame relation of a confirm-poll call on one order row: every column
other than the two backfillable identifiers is unchanged, and each identifier
is unchanged whenever it already held a truthy value. -/
def confirmFrame (r r' : OrderRow) : Prop :=
  r'.id = r.id ∧ r'.status = r.status ∧ r'.payment_status = r.payment_status
    ∧ r'.paid_at = r.paid_at ∧ r'.payment_provider = r.payment_provider
    ∧ r'.payment_method_brand = r.payment_method_brand
    ∧ r'.payment_last4 = r.payment_last4 ∧ r'.payment_ref = r.payment_ref
    ∧ r'.total_cents = r.total_cents
    ∧ (truthy r.checkout_session_id = true →
        r'.checkout_session_id = r.checkout_session_id)
    ∧ (truthy r.payment_intent_id = true → r'.payment_intent_id = r.payment_intent_id)

theorem confirmFrame_refl (r : OrderRow) : confirmFrame r r :=
  ⟨rfl, rfl, rfl, rfl, rfl, rfl, rfl, rfl, rfl, fun _ => rfl, fun _ => rfl⟩

/-- The columns a backfill patch may carry: everything except the two
identifiers is absent. -/
def backfillPatchOnly (p : UpdatePatch) : Prop :=
  p.status = none ∧ p.payment_status = none ∧ p.paid_at = none
    ∧ p.payment_provider = none ∧ p.payment_method_brand = none
    ∧ p.payment_last4 = none ∧ p.payment_ref = none ∧ p.total_cents = none

theorem confirmFrame_applyPatch (p : UpdatePatch) (r : OrderRow)
    (hp : backfillPatchOnly p)
    (hcs : truthy r.checkout_session_id = true → p.checkout_session_id = none)
    (hpi : truthy r.payment_intent_id = true → p.payment_intent_id = none) :
    confirmFrame r (applyPatch p r) := by
  obtain ⟨h1, h2, h3, h4, h5, h6, h7, h8⟩ := hp
  refine ⟨rfl, ?_, ?_, ?_, ?_, ?_, ?_, ?_, ?_, ?_, ?_⟩
  · simp [applyPatch, h1]
  · simp [applyPatch, h2]
  · simp [applyPatch, h3]
  · simp [applyPatch, h4]
  · simp [applyPatch, h5]
  · simp [applyPatch, h6]
  · simp [applyPatch, h7]
  · simp [applyPatch, h8]
  · intro htr
    simp [applyPatch, hcs htr]
  · intro htr
    simp [applyPatch, hpi htr]

theorem backfill_cases (readF updF : Bool) (orderId csid piid : Option String)
    (db : List OrderRow) :
    ((ConfirmSession.backfillStripeIds readF updF orderId csid piid db).1 = db
      ∧ ∀ f p, Effect.updateRows f p
          ∉ (ConfirmSession.backfillStripeIds readF updF orderId csid piid db).2)
    ∨ ∃ oid existing p,
        findRow db oid = some existing
        ∧ backfillPatchOnly p
        ∧ (truthy existing.checkout_session_id = true → p.checkout_session_id = none)
        ∧ (truthy existing.payment_intent_id = true → p.payment_intent_id = none)
        ∧ (ConfirmSession.backfillStripeIds readF updF orderId csid piid db).2
          = [Effect.readById oid, Effect.updateRows (UpdateFilter.byId (some oid)) p]
        ∧ ((ConfirmSession.backfillStripeIds readF updF orderId csid piid db).1
            = updateWhere db (UpdateFilter.byId (some oid)) p
          ∨ (ConfirmSession.backfillStripeIds readF updF orderId csid piid db).1 = db) := by
  unfold ConfirmSession.backfillStripeIds
  by_cases ht : truthy orderId = true
  case neg =>
    left
    simp [ht]
  case pos =>
    simp only [ht, Bool.not_true, Bool.false_eq_true, if_false]
    by_cases hr : readF = true
    case pos =>
      left
      simp [hr]
    case neg =>
      simp only [Bool.not_eq_true] at hr
      subst hr
      simp only [Bool.false_eq_true, if_false]
      cases hfind : findRow db (orderId.getD "") with
      | none =>
          left
          simp
      | some existing =>
          by_cases h1 : (truthy csid && !truthy existing.checkout_session_id) = true
          case neg =>
            simp only [h1, Bool.false_eq_true, if_false]
            by_cases h2 : (truthy piid && !truthy existing.payment_intent_id) = true
            case neg =>
              left
              simp [h2]
            case pos =>
              simp only [h2, if_true]
              have hne : ({ emptyPatch with payment_intent_id := some piid }
                  == emptyPatch) = false := by
                refine beq_eq_false_iff_ne.2 fun h => ?_
                have := congrArg UpdatePatch.payment_intent_id h
                simp [emptyPatch] at this
              simp only [hne, Bool.false_eq_true, if_false]
              right
              refine ⟨orderId.getD "", existing,
                { emptyPatch with payment_intent_id := some piid }, hfind,
                ⟨rfl, rfl, rfl, rfl, rfl, rfl, rfl, rfl⟩, fun _ => rfl, ?_, ?_, ?_⟩
              · intro htr
                rw [Bool.and_eq_true] at h2
                exact absurd htr (by simpa using h2.2)
              · cases updF <;> simp
              · cases updF <;> simp
          case pos =>
            simp only [h1, if_true]
            by_cases h2 : (truthy piid && !truthy existing.payment_intent_id) = true
            case neg =>
              simp only [h2, Bool.false_eq_true, if_false]
              have hne : ({ emptyPatch with checkout_session_id := some csid }
                  == emptyPatch) = false := by
                refine beq_eq_false_iff_ne.2 fun h => ?_
                have := congrArg UpdatePatch.checkout_session_id h
                simp [emptyPatch] at this
              simp only [hne, Bool.false_eq_true, if_false]
              right
              refine ⟨orderId.getD "", existing,
                { emptyPatch with checkout_session_id := some csid }, hfind,
                ⟨rfl, rfl, rfl, rfl, rfl, rfl, rfl, rfl⟩, ?_, fun _ => rfl, ?_, ?_⟩
              · intro htr
                rw [Bool.and_eq_true] at h1
                exact absurd htr (by simpa using h1.2)
              · cases updF <;> simp
              · cases updF <;> simp
            case pos =>
              simp only [h2, if_true]
              have hne : (({ { emptyPatch with checkout_session_id := some csid } with
                      payment_intent_id := some piid } : UpdatePatch)
                    == emptyPatch) = false := by
                refine beq_eq_false_iff_ne.2 fun h => ?_
                have := congrArg UpdatePatch.payment_intent_id h
                simp [emptyPatch] at this
              simp only [hne, Bool.false_eq_true, if_false]
              right
              refine ⟨orderId.getD "", existing,
                { { emptyPatch with checkout_session_id := some csid } with
                  payment_intent_id := some piid }, hfind,
                ⟨rfl, rfl, rfl, rfl, rfl, rfl, rfl, rfl⟩, ?_, ?_, ?_, ?_⟩
              · intro htr
                rw [Bool.and_eq_true] at h1
                exact absurd htr (by simpa using h1.2)
              · intro htr
                rw [Bool.and_eq_true] at h2
                exact absurd htr (by simpa using h2.2)
              · cases updF <;> simp
              · cases updF <;> simp

theorem findOrderId_ops_no_update (csid piid : Option String) (db : List OrderRow) :
    ∀ f p, Effect.updateRows f p
      ∉ (ConfirmSession.findOrderIdByStripeIds csid piid db).2 := by
  intro f p
  have hby : ∀ prevOps : List Effect,
      (∀ g q, Effect.updateRows g q ∉ prevOps) →
      Effect.updateRows f p ∉ (ConfirmSession.findByIntentId piid db prevOps).2 := by
    intro prevOps hprev
    unfold ConfirmSession.findByIntentId
    by_cases ht : truthy piid = true
    · simp only [ht, if_true]
      cases db.find? fun r => r.payment_intent_id == piid with
      | none =>
          simp only [List.mem_append, List.mem_singleton]
          rintro (h | h)
          · exact hprev f p h
          · exact Effect.noConfusion h
      | some r =>
          by_cases hid : (r.id != "") = true <;>
            · simp only [hid, if_true, Bool.false_eq_true, if_false,
                List.mem_append, List.mem_singleton]
              rintro (h | h)
              · exact hprev f p h
              · exact Effect.noConfusion h
    · simp only [Bool.not_eq_true] at ht
      simp only [ht, Bool.false_eq_true, if_false]
      exact hprev f p
  unfold ConfirmSession.findOrderIdByStripeIds
  by_cases ht : truthy csid = true
  · simp only [ht, if_true]
    cases db.find? fun r => r.checkout_session_id == csid with
    | none =>
        refine hby _ ?_
        intro g q h
        simp at h
    | some r =>
        by_cases hid : (r.id != "") = true
        · simp only [hid, if_true, List.mem_singleton]
          intro h
          exact Effect.noConfusion h
        · simp only [hid, Bool.false_eq_true, if_false]
          refine hby _ ?_
          intro g q h
          simp at h
  · simp only [Bool.not_eq_true] at ht
    simp only [ht, Bool.false_eq_true, if_false]
    refine hby _ ?_
    intro g q h
    exact absurd h (List.not_mem_nil _)

/-- C10: a confirm-session call never writes the status, payment_status,
paid_at or any other non-identifier column: every update it issues carries
only checkout_session_id and payment_intent_id, each only when the row's
existing value is empty, and row-wise the store changes in no other way. -/
theorem C10_confirm_only_backfills
    (retrieveFails readFails updFails : Bool) (full : Session) (method : String)
    (sessionId : Option String) (db : List OrderRow)
    (hnd : (db.map OrderRow.id).Nodup) :
    List.Forall₂ confirmFrame db
        (ConfirmSession.handler retrieveFails readFails updFails full method sessionId
          db).db
    ∧ ∀ f p, Effect.updateRows f p
        ∈ (ConfirmSession.handler retrieveFails readFails updFails full method sessionId
            db).ops →
        backfillPatchOnly p := by
  have hframe_refl : List.Forall₂ confirmFrame db db :=
    List.forall₂_same.2 fun r _ => confirmFrame_refl r
  have hbf_frame : ∀ orderId : Option String,
      List.Forall₂ confirmFrame db
        (ConfirmSession.backfillStripeIds readFails updFails orderId (some full.id)
          ((sessionPIObj full).bind fun p => p.id) db).1 := by
    intro orderId
    rcases backfill_cases readFails updFails orderId (some full.id)
        ((sessionPIObj full).bind fun p => p.id) db with
      ⟨hdb, _⟩ | ⟨oid, ex, p, hfind, hp, hcs, hpi, _, hdb⟩
    · rw [hdb]
      exact hframe_refl
    · rcases hdb with hdb | hdb
      · rw [hdb]
        unfold updateWhere
        refine List.forall₂_map_right_iff.2 (List.forall₂_same.2 fun r hr => ?_)
        by_cases hmf : matchesFilter (UpdateFilter.byId (some oid)) r = true
        · have hrid : r.id = oid := by simpa [matchesFilter] using hmf
          have hrex : r = ex :=
            List.inj_on_of_nodup_map hnd hr (findRow_mem hfind)
              (by rw [hrid, findRow_id hfind])
          subst hrex
          simp only [hmf, if_true]
          exact confirmFrame_applyPatch p r hp hcs hpi
        · simp only [Bool.not_eq_true] at hmf
          simp only [hmf, Bool.false_eq_true, if_false]
          exact confirmFrame_refl r
      · rw [hdb]
        exact hframe_refl
  have hbf_ops : ∀ (orderId : Option String) (f : UpdateFilter) (p : UpdatePatch),
      Effect.updateRows f p
        ∈ (ConfirmSession.backfillStripeIds readFails updFails orderId (some full.id)
            ((sessionPIObj full).bind fun p => p.id) db).2 →
        backfillPatchOnly p := by
    intro orderId f p hmem
    rcases backfill_cases readFails updFails orderId (some full.id)
        ((sessionPIObj full).bind fun p => p.id) db with
      ⟨_, hops⟩ | ⟨oid, ex, q, _, hq, _, _, hops, _⟩
    · exact absurd hmem (hops f p)
    · rw [hops] at hmem
      simp only [List.mem_cons, List.mem_singleton, List.not_mem_nil, or_false] at hmem
      rcases hmem with h | h
      · exact Effect.noConfusion h
      · cases h
        exact hq
  unfold ConfirmSession.handler
  by_cases hm : ((method != "POST") && (method != "GET")) = true
  · simp only [hm, if_true]
    exact ⟨hframe_refl, fun f p h => absurd h (List.not_mem_nil _)⟩
  · simp only [hm, Bool.false_eq_true, if_false]
    cases sessionId with
    | none => exact ⟨hframe_refl, fun f p h => absurd h (List.not_mem_nil _)⟩
    | some sid =>
        by_cases hs : (sid == "") = true
        · simp only [hs, if_true]
          exact ⟨hframe_refl, fun f p h => absurd h (List.not_mem_nil _)⟩
        · simp only [hs, Bool.false_eq_true, if_false]
          by_cases hrf : retrieveFails = true
          · simp only [hrf, if_true]
            refine ⟨hframe_refl, fun f p h => ?_⟩
            simp only [List.mem_singleton] at h
            exact Effect.noConfusion h
          · simp only [Bool.not_eq_true] at hrf
            simp only [hrf, Bool.false_eq_true, if_false]
            by_cases h0 : truthy (orStr (full.metadata.bind fun m => m.order_id)
                (orStr full.client_reference_id none)) = true
            · simp only [h0, if_true]
              refine ⟨hbf_frame _, fun f p h => ?_⟩
              simp only [List.nil_append, List.mem_cons] at h
              rcases h with h | h
              · exact Effect.noConfusion h
              · exact hbf_ops _ f p h
            · simp only [h0, Bool.false_eq_true, if_false]
              by_cases h1 : truthy (ConfirmSession.findOrderIdByStripeIds (some full.id)
                  ((sessionPIObj full).bind fun p => p.id) db).1 = true
              · simp only [h1, if_true]
                refine ⟨hbf_frame _, fun f p h => ?_⟩
                simp only [List.mem_cons, List.mem_append] at h
                rcases h with h | h | h
                · exact Effect.noConfusion h
                · exact absurd h (findOrderId_ops_no_update _ _ db f p)
                · exact hbf_ops _ f p h
              · simp only [h1, Bool.false_eq_true, if_false]
                refine ⟨hframe_refl, fun f p h => ?_⟩
                simp only [List.append_nil, List.mem_cons] at h
                rcases h with h | h
                · exact Effect.noConfusion h
                · exact absurd h (findOrderId_ops_no_update _ _ db f p)

/-- The pending order row of the concrete C10 scenario, with both provider
identifiers still empty. -/
def c10row : OrderRow :=
  OrderRow.mk "10101010-1010-1010-1010-101010101010" (some "pending") (some "unpaid")
    none none none none none none none none none

/-- The retrieved session of the concrete C10 scenario. -/
def c10full : Session :=
  Session.mk "cs_10"
    (some (Metadata.mk (some "10101010-1010-1010-1010-101010101010") none))
    none none none none (some "paid") none

/-- Witness for C10 at a concrete confirm-poll call targeting a pending
order. -/
theorem C10_witness :
    List.Forall₂ confirmFrame [c10row]
        (ConfirmSession.handler false false false c10full "GET" (some "cs_10")
          [c10row]).db
    ∧ ∀ f p, Effect.updateRows f p
        ∈ (ConfirmSession.handler false false false c10full "GET" (some "cs_10")
            [c10row]).ops →
        backfillPatchOnly p :=
  C10_confirm_only_backfills false false false c10full "GET" (some "cs_10") [c10row]
    (by decide)

/-- Order id of the canceled order used for the C2 failing input. -/
def c2id : String := "22222222-2222-2222-2222-222222222222"

/-- A canceled order row. -/
def c2row : OrderRow :=
  OrderRow.mk c2id (some "canceled") none none none none none none none none none none

/-- A session whose client reference id targets the canceled order. -/
def c2session : Session := Session.mk "cs_2" none (some c2id) none none none none none

/-- A validly signed checkout-completed event for that session. -/
def c2event : Event :=
  Event.mk "evt_2" "checkout.session.completed" (EventData.session c2session)

/-- C2 failing input: the webhook.js handler, processing a payment event for
an order whose status is terminal (canceled), overwrites the row to paid and
acknowledges with received-true instead of no-opping with already_terminal;
markPaidBySession performs no terminal-state check before its write. -/
theorem C2_codebug_canceled_overwritten :
    (Webhook.handler EventData.other.asIntent false "t2" (fun _ _ _ => some c2event)
        "whsec" "POST" "raw" (some "sig") [c2row]).db
      = [{ c2row with
            status := some "paid",
            paid_at := some "t2",
            checkout_session_id := some "cs_2" }]
    ∧ c2row.status = some "canceled"
    ∧ (Webhook.handler EventData.other.asIntent false "t2" (fun _ _ _ => some c2event)
        "whsec" "POST" "raw" (some "sig") [c2row]).resp
      = HttpResponse.mk 200 (RespBody.json { emptyJson with received := some true }) := by
  refine ⟨rfl, rfl, rfl⟩

/-- A session carrying a malformed order id in its client reference id. -/
def c3session : Session :=
  Session.mk "cs_3" none (some "not-a-uuid") none none none none none

/-- A validly signed checkout-completed event for that session. -/
def c3event : Event :=
  Event.mk "evt_3" "checkout.session.completed" (EventData.session c3session)

/-- The update payload markPaidBySession builds for that session. -/
def c3patch : UpdatePatch :=
  { emptyPatch with
    status := some (some "paid"),
    paid_at := some (some "t3"),
    checkout_session_id := some (some "cs_3"),
    payment_intent_id := some none }

/-- C3 failing input: the webhook.js handler, given an event whose resolved
order id fails UUID validation, still issues an order-store update filtered
on that malformed id and acknowledges with received-true instead of an
ignored acknowledgment; no UUID validation exists on this path. -/
theorem C3_codebug_invalid_id_write_attempted :
    (Webhook.handler EventData.other.asIntent false "t3" (fun _ _ _ => some c3event)
        "whsec" "POST" "raw" (some "sig") []).ops
      = [Effect.updateRows (UpdateFilter.byId (some "not-a-uuid")) c3patch]
    ∧ isUuidStr "not-a-uuid" = false
    ∧ (Webhook.handler EventData.other.asIntent false "t3" (fun _ _ _ => some c3event)
        "whsec" "POST" "raw" (some "sig") []).resp
      = HttpResponse.mk 200 (RespBody.json { emptyJson with received := some true }) := by
  refine ⟨rfl, by decide, rfl⟩

/-- Order id of the racing order used for the C6 failing input. -/
def c6id : String := "66666666-6666-6666-6666-666666666666"

/-- The order as the pre-write read sees it: still pending. -/
def c6pending : OrderRow :=
  OrderRow.mk c6id (some "pending") (some "unpaid") none none none none none none none none none

/-- The same order as a concurrent cancellation leaves it at write time. -/
def c6canceled : OrderRow := { c6pending with status := some "canceled" }

/-- A paid-transition payload for the conditional update. -/
def c6patch : UpdatePatch := { emptyPatch with status := some (some "paid") }

/-- C6 failing input: the conditional update issued by markOrderPaid of
stripe-webhook.js is filtered by id only; applied to a store where the row
has become canceled between the read and the write, it still matches the
canceled row and overwrites it to paid, whereas the part_001 filter with the
not-canceled guard excludes that row. -/
theorem C6_codebug_no_canceled_guard :
    (StripeWebhook.markOrderPaid false false (some c6id) c6patch [c6pending]).ops
      = [Effect.readById c6id,
         Effect.updateRows (UpdateFilter.byId (some c6id)) c6patch]
    ∧ applyEffect (Effect.updateRows (UpdateFilter.byId (some c6id)) c6patch) [c6canceled]
      = [{ c6canceled with status := some "paid" }]
    ∧ matchesFilter (UpdateFilter.byId (some c6id)) c6canceled = true
    ∧ matchesFilter (UpdateFilter.byIdNotCanceled c6id) c6canceled = false := by
  refine ⟨rfl, rfl, by decide, by decide⟩

/-- Witness for C4 at a concrete request whose verification fails. -/
theorem C4_witness :
    ((StripeWebhook.handler (ProviderCtx.mk (EventData.other).asSession (EventData.other).asIntent)
        false false "t0" (fun _ _ _ => none) "whsec" "POST" "body" (some "sig") []).resp.status
        = 400
      ∧ (StripeWebhook.handler (ProviderCtx.mk (EventData.other).asSession (EventData.other).asIntent)
        false false "t0" (fun _ _ _ => none) "whsec" "POST" "body" (some "sig") []).ops = []
      ∧ (StripeWebhook.handler (ProviderCtx.mk (EventData.other).asSession (EventData.other).asIntent)
        false false "t0" (fun _ _ _ => none) "whsec" "POST" "body" (some "sig") []).db = [])
    ∧ ((Webhook.handler (EventData.other).asIntent false "t0" (fun _ _ _ => none) "whsec"
        "POST" "body" (some "sig") []).resp.status = 400
      ∧ (Webhook.handler (EventData.other).asIntent false "t0" (fun _ _ _ => none) "whsec"
        "POST" "body" (some "sig") []).ops = []
      ∧ (Webhook.handler (EventData.other).asIntent false "t0" (fun _ _ _ => none) "whsec"
        "POST" "body" (some "sig") []).db = []) :=
  C4_signature_failure_no_access (fun _ _ _ => none) "whsec" "body" "t0" (some "sig")
    (ProviderCtx.mk (EventData.other).asSession (EventData.other).asIntent)
    (EventData.other).asIntent false false [] rfl

end StripeBackend
